import Mathlib

/-!
Verification of the robozilla-core control plane against its specification.

The Python source treats all entities as loosely-typed nested mappings
(dicts/lists/strings/numbers).  We embed those documents as a `Json` tree.
RFC 3339 timestamps are modelled by their instants on the timeline as
integers, since the core only ever parses them, compares them, and formats
them back (`parse_rfc3339` / `format_rfc3339` in `utils.py`); no claim
depends on the textual format.  Monetary amounts (`max_cost`) are likewise
modelled as integers (a fixed scaling of the decimal amounts); the source
only compares them.

The persistence layer (`storage/sqlite.py`) is modelled as an explicit
`Store` value threaded through a state-plus-error monad `DbM` in which an
error preserves the state, exactly as a raised Python exception leaves the
SQLite database with all previously committed writes.

The JSON-Schema validator delegates per-document error enumeration to the
external `jsonschema` library; the schema files themselves are not part of
the core sources.  The engine and services therefore take the validator as
an explicit function argument, and the validator's own post-processing
(collecting all violations and sorting them by `(path, message)`,
`registry/schema_validator.py`) is embedded over an abstract error
enumerator.
-/

/-- Documents: loosely-typed nested mappings, as in the Python source.
Object fields keep insertion order and have unique keys, like Python dicts. -/
inductive Json where
  | null : Json
  | bool (b : Bool) : Json
  | num (n : Int) : Json
  | str (s : String) : Json
  | arr (elems : List Json) : Json
  | obj (fields : List (String × Json)) : Json
deriving Repr, Inhabited

mutual

def Json.decEq : (a b : Json) → Decidable (a = b)
  | .null, .null => .isTrue rfl
  | .null, .bool _ => .isFalse (fun h => Json.noConfusion h)
  | .null, .num _ => .isFalse (fun h => Json.noConfusion h)
  | .null, .str _ => .isFalse (fun h => Json.noConfusion h)
  | .null, .arr _ => .isFalse (fun h => Json.noConfusion h)
  | .null, .obj _ => .isFalse (fun h => Json.noConfusion h)
  | .bool _, .null => .isFalse (fun h => Json.noConfusion h)
  | .bool a, .bool b =>
    if h : a = b then .isTrue (h ▸ rfl) else .isFalse (fun he => by cases he; exact h rfl)
  | .bool _, .num _ => .isFalse (fun h => Json.noConfusion h)
  | .bool _, .str _ => .isFalse (fun h => Json.noConfusion h)
  | .bool _, .arr _ => .isFalse (fun h => Json.noConfusion h)
  | .bool _, .obj _ => .isFalse (fun h => Json.noConfusion h)
  | .num _, .null => .isFalse (fun h => Json.noConfusion h)
  | .num _, .bool _ => .isFalse (fun h => Json.noConfusion h)
  | .num a, .num b =>
    if h : a = b then .isTrue (h ▸ rfl) else .isFalse (fun he => by cases he; exact h rfl)
  | .num _, .str _ => .isFalse (fun h => Json.noConfusion h)
  | .num _, .arr _ => .isFalse (fun h => Json.noConfusion h)
  | .num _, .obj _ => .isFalse (fun h => Json.noConfusion h)
  | .str _, .null => .isFalse (fun h => Json.noConfusion h)
  | .str _, .bool _ => .isFalse (fun h => Json.noConfusion h)
  | .str _, .num _ => .isFalse (fun h => Json.noConfusion h)
  | .str a, .str b =>
    if h : a = b then .isTrue (h ▸ rfl) else .isFalse (fun he => by cases he; exact h rfl)
  | .str _, .arr _ => .isFalse (fun h => Json.noConfusion h)
  | .str _, .obj _ => .isFalse (fun h => Json.noConfusion h)
  | .arr _, .null => .isFalse (fun h => Json.noConfusion h)
  | .arr _, .bool _ => .isFalse (fun h => Json.noConfusion h)
  | .arr _, .num _ => .isFalse (fun h => Json.noConfusion h)
  | .arr _, .str _ => .isFalse (fun h => Json.noConfusion h)
  | .arr as, .arr bs =>
    match Json.decEqList as bs with
    | .isTrue h => .isTrue (h ▸ rfl)
    | .isFalse h => .isFalse (fun he => by cases he; exact h rfl)
  | .arr _, .obj _ => .isFalse (fun h => Json.noConfusion h)
  | .obj _, .null => .isFalse (fun h => Json.noConfusion h)
  | .obj _, .bool _ => .isFalse (fun h => Json.noConfusion h)
  | .obj _, .num _ => .isFalse (fun h => Json.noConfusion h)
  | .obj _, .str _ => .isFalse (fun h => Json.noConfusion h)
  | .obj _, .arr _ => .isFalse (fun h => Json.noConfusion h)
  | .obj fs, .obj gs =>
    match Json.decEqFields fs gs with
    | .isTrue h => .isTrue (h ▸ rfl)
    | .isFalse h => .isFalse (fun he => by cases he; exact h rfl)

def Json.decEqList : (as bs : List Json) → Decidable (as = bs)
  | [], [] => .isTrue rfl
  | [], _ :: _ => .isFalse (fun h => List.noConfusion h)
  | _ :: _, [] => .isFalse (fun h => List.noConfusion h)
  | a :: as, b :: bs =>
    match Json.decEq a b with
    | .isFalse h => .isFalse (fun he => by cases he; exact h rfl)
    | .isTrue h1 =>
      match Json.decEqList as bs with
      | .isTrue h2 => .isTrue (by rw [h1, h2])
      | .isFalse h2 => .isFalse (fun he => by cases he; exact h2 rfl)

def Json.decEqFields : (as bs : List (String × Json)) → Decidable (as = bs)
  | [], [] => .isTrue rfl
  | [], _ :: _ => .isFalse (fun h => List.noConfusion h)
  | _ :: _, [] => .isFalse (fun h => List.noConfusion h)
  | (k1, v1) :: as, (k2, v2) :: bs =>
    if hk : k1 = k2 then
      match Json.decEq v1 v2 with
      | .isFalse hv => .isFalse (fun he => by cases he; exact hv rfl)
      | .isTrue hv =>
        match Json.decEqFields as bs with
        | .isTrue ht => .isTrue (by rw [hk, hv, ht])
        | .isFalse ht => .isFalse (fun he => by cases he; exact ht rfl)
    else .isFalse (fun he => by cases he; exact hk rfl)

end

instance : DecidableEq Json := Json.decEq

/-- Lookup of a key in an object's field list (Python `d[k]` / `k in d`). -/
def objGet (fields : List (String × Json)) (k : String) : Option Json :=
  match fields with
  | [] => none
  | (k2, v) :: rest => if k2 = k then some v else objGet rest k

/-- Python `d[k] = v`: replace in place when the key exists (keeping its
position), otherwise append at the end. -/
def objSet (fields : List (String × Json)) (k : String) (v : Json) : List (String × Json) :=
  match fields with
  | [] => [(k, v)]
  | (k2, v2) :: rest => if k2 = k then (k2, v) :: rest else (k2, v2) :: objSet rest k v

/-- Python `d.setdefault(k, v)`: keep an existing entry, else append. -/
def objSetdefault (fields : List (String × Json)) (k : String) (v : Json) : List (String × Json) :=
  match objGet fields k with
  | some _ => fields
  | none => fields ++ [(k, v)]

/-- Navigation core of `utils.deep_get`: descend through nested objects. -/
def deepGetAux : Json → List String → Option Json
  | j, [] => some j
  | .obj fields, k :: rest =>
    match objGet fields k with
    | some v => deepGetAux v rest
    | none => none
  | _, _ :: _ => none

/-- Replace the subdocument at `path` (the effect of Python mutating, in
place, the dict obtained by `deep_get` on a copy).  When the path is
missing the document is returned unchanged; callers only use this after a
successful `deep_get` on the same path. -/
def setDeep : Json → List String → Json → Json
  | _, [], v => v
  | .obj fields, k :: rest, v =>
    match objGet fields k with
    | some child => .obj (objSet fields k (setDeep child rest v))
    | none => .obj fields
  | j, _ :: _, _ => j

/-- A single schema violation, as in `errors.SchemaViolation`. -/
structure SchemaViolation where
  path : String
  message : String
deriving Repr, DecidableEq

/-- The closed error taxonomy of `errors.py`, plus the Python exceptions
(`KeyError`, `TypeError`/`ValueError`) that escape the helpers in
`utils.py` and surface as internal errors. -/
inductive Err where
  | schemaValidation (kind : String) (violations : List SchemaViolation) : Err
  | contractViolation (message code : String) : Err
  | policyViolation (message : String) : Err
  | conflict (message : String) : Err
  | notFound (resource_type resource_id : String) : Err
  | keyError (message : String) : Err
  | typeError (message : String) : Err
deriving Repr, DecidableEq

/-- `utils.deep_get`: raises `KeyError` on a missing path. -/
def deep_get (j : Json) (path : List String) : Except Err Json :=
  match deepGetAux j path with
  | some v => .ok v
  | none => .error (.keyError ("missing path: " ++ String.intercalate "." path))

/-- Python `str(...)` on the document values the core reads (the relevant
positions always hold strings; the other constructors mirror Python's
conversions where they are defined document-independently). -/
def pyStr : Json → String
  | .str s => s
  | .num n => toString n
  | .bool true => "True"
  | .bool false => "False"
  | .null => "None"
  | .arr _ => "[...]"
  | .obj _ => "{...}"

/-- `str(deep_get(doc, path))`, the pervasive extraction idiom. -/
def strGet (j : Json) (path : List String) : Except Err String :=
  (deep_get j path).map pyStr

/-- `str(d.get(k))`: Python `str(None) = "None"` when the key is absent. -/
def pyStrOpt : Option Json → String
  | none => "None"
  | some v => pyStr v

/-- `utils.format_rfc3339` under the instants-as-integers model of
timestamps: an injective rendering of the instant. -/
def format_rfc3339 (t : Int) : String := toString t

/-- `utils.parse_rfc3339` under the instants-as-integers model: a stored
timestamp leaf is its instant; anything else fails like a parse error. -/
def parseTime (j : Json) : Except Err Int :=
  match j with
  | .num n => .ok n
  | _ => .error (.typeError "date-time must be timezone-aware (include Z or offset)")

/-- Python `int(x)` on an optional document value: defined on numbers,
raises `TypeError` on `None` and non-numeric shapes (`int(None)`). -/
def pyInt (v : Option Json) : Except Err Int :=
  match v with
  | some (.num n) => .ok n
  | _ => .error (.typeError "int() argument must be a number")

/-- Python `float(x)` under the integers model of monetary amounts. -/
def pyFloat (v : Option Json) : Except Err Int :=
  match v with
  | some (.num n) => .ok n
  | _ => .error (.typeError "float() argument must be a number")

/-! ## Job lifecycle state machine (`executor/state_machine.py`) -/

/-- `state_machine.TransitionRequest`. -/
structure TransitionRequest where
  new_state : String
  now : Int
  final_evaluation_ref : Option String := none
  failure_mode : Option String := none
  failure_details : Option String := none
  expiry_reason : Option String := none
  last_stop_condition : Option String := none
deriving Repr, DecidableEq

/-- Python truthiness of an optional string field of `TransitionRequest`
(`if not req.final_evaluation_ref`): `None` and `""` are falsy. -/
def truthyStr : Option String → Bool
  | none => false
  | some s => !s.isEmpty

/-- `state_machine.is_terminal` over `_TERMINAL_STATES`. -/
def is_terminal (s : String) : Bool :=
  s = "completed" || s = "failed" || s = "expired"

/-- `state_machine._ALLOWED` (`dict.get`: `none` for unknown states). -/
def allowedTransitions (s : String) : Option (List String) :=
  if s = "created" then some ["running", "waiting", "completed", "failed"]
  else if s = "running" then some ["waiting", "completed", "failed"]
  else if s = "waiting" then some ["running", "completed", "failed"]
  else if s = "completed" then some []
  else if s = "failed" then some []
  else if s = "expired" then some []
  else none

/-- The `spec.status` field updates of `apply_transition` after all
transition-validity checks passed: the mutations the source performs on the
status dict of the deep copy, including the required-field contract checks
for the target state. -/
def buildStatusFields (fields : List (String × Json)) (req : TransitionRequest) :
    Except Err (List (String × Json)) := do
  let fields := objSet fields "state" (.str req.new_state)
  let fields := objSet fields "status_updated_at" (.str (format_rfc3339 req.now))
  let fields :=
    if req.new_state = "running" then
      objSetdefault fields "started_at" (.str (format_rfc3339 req.now))
    else fields
  let fields ←
    if req.new_state = "completed" || req.new_state = "failed" then
      match req.final_evaluation_ref with
      | some r =>
        if r.isEmpty then
          .error (.contractViolation "final_evaluation_ref is required for completed/failed jobs" "MISSING_FINAL_EVALUATION_REF")
        else
          pure (objSet (objSet fields "final_evaluation_ref" (.str r)) "terminal_at" (.str (format_rfc3339 req.now)))
      | none =>
        .error (.contractViolation "final_evaluation_ref is required for completed/failed jobs" "MISSING_FINAL_EVALUATION_REF")
    else pure fields
  let fields ←
    if req.new_state = "failed" then
      match req.failure_mode with
      | some m =>
        if m.isEmpty then
          .error (.contractViolation "failure_mode is required for failed jobs" "MISSING_FAILURE_MODE")
        else
          pure (match req.failure_details with
            | some d => if d.isEmpty then objSet fields "failure_mode" (.str m) else objSet (objSet fields "failure_mode" (.str m)) "failure_details" (.str d)
            | none => objSet fields "failure_mode" (.str m))
      | none =>
        .error (.contractViolation "failure_mode is required for failed jobs" "MISSING_FAILURE_MODE")
    else pure fields
  let fields ←
    if req.new_state = "expired" then
      match req.expiry_reason with
      | some r =>
        if r.isEmpty then
          .error (.contractViolation "expiry_reason is required for expired jobs" "MISSING_EXPIRY_REASON")
        else
          pure (objSet (objSet fields "expiry_reason" (.str r)) "terminal_at" (.str (format_rfc3339 req.now)))
      | none =>
        .error (.contractViolation "expiry_reason is required for expired jobs" "MISSING_EXPIRY_REASON")
    else pure fields
  let fields :=
    match req.last_stop_condition with
    | some c => if c.isEmpty then fields else objSet fields "last_stop_condition" (.str c)
    | none => fields
  pure fields

/-- The transition-validity gate of `apply_transition`: expiry is allowed
from any non-terminal state, everything else must be in `_ALLOWED`. -/
def transitionAllowedCheck (current_state new_state : String) : Except Err Unit :=
  if new_state = "expired" then .ok ()
  else
    match allowedTransitions current_state with
    | none => .error (.conflict ("Invalid job state transition: " ++ current_state ++ " -> " ++ new_state))
    | some allowed =>
      if allowed.contains new_state then .ok ()
      else .error (.conflict ("Invalid job state transition: " ++ current_state ++ " -> " ++ new_state))

/-- `state_machine.apply_transition`: pure function from a job document and
a transition request to a new job document (or an error).  The source's
early returns/raises become the if/else cascade; the deep copy is the
functional update `setDeep`. -/
def apply_transition (job : Json) (req : TransitionRequest) : Except Err Json := do
  let cur ← deep_get job ["spec", "status", "state"]
  let current_state := pyStr cur
  let new_state := req.new_state
  if new_state = current_state then
    pure job
  else if is_terminal current_state then
    throw (.conflict ("Job is terminal; cannot transition from " ++ current_state ++ " to " ++ new_state))
  else do
    transitionAllowedCheck current_state new_state
    let statusJson ← deep_get job ["spec", "status"]
    match statusJson with
    | .obj fields => do
      let fields ← buildStatusFields fields req
      pure (setDeep job ["spec", "status"] (.obj fields))
    | _ => throw (.contractViolation "Invalid JobContract.spec.status shape" "INVALID_JOB_STATUS")

/-! ## Persistence layer (`storage/sqlite.py`) -/

/-- A row of the append-only `job_events` audit log. -/
structure JobEvent where
  ts : Int
  org_id : String
  job_id : String
  event_type : String
  details : List (String × Json)
deriving Repr, DecidableEq

/-- The durable state behind the three stores of `SQLiteStores`.  The full
documents are the source of truth; the extracted SQL columns are derived
views recomputed from the documents where queries need them. -/
structure Store where
  jobs : List (String × Json)
  artifacts : List (String × Json)
  evaluations : List (String × Json)
  events : List JobEvent
deriving Repr, DecidableEq

/-- Outcome of a database-backed request: a raised error leaves all writes
committed so far in place, exactly like an exception over the SQLite file. -/
inductive DbResult (α : Type) where
  | ok (a : α) (s : Store) : DbResult α
  | error (e : Err) (s : Store) : DbResult α
deriving Repr

instance [DecidableEq α] : DecidableEq (DbResult α) := fun a b =>
  match a, b with
  | .ok x s, .ok y t =>
    if h : x = y ∧ s = t then .isTrue (by rw [h.1, h.2]) else
      .isFalse (fun he => by cases he; exact h ⟨rfl, rfl⟩)
  | .ok _ _, .error _ _ => .isFalse (fun h => DbResult.noConfusion h)
  | .error _ _, .ok _ _ => .isFalse (fun h => DbResult.noConfusion h)
  | .error e s, .error f t =>
    if h : e = f ∧ s = t then .isTrue (by rw [h.1, h.2]) else
      .isFalse (fun he => by cases he; exact h ⟨rfl, rfl⟩)

instance {e a : Type} [DecidableEq e] [DecidableEq a] : DecidableEq (Except e a) := fun x y =>
  match x, y with
  | .ok u, .ok v =>
    if h : u = v then .isTrue (by rw [h]) else .isFalse (fun he => by cases he; exact h rfl)
  | .ok _, .error _ => .isFalse (fun h => Except.noConfusion h)
  | .error _, .ok _ => .isFalse (fun h => Except.noConfusion h)
  | .error u, .error v =>
    if h : u = v then .isTrue (by rw [h]) else .isFalse (fun he => by cases he; exact h rfl)

/-- State-plus-error monad over the durable store. -/
def DbM (α : Type) : Type := Store → DbResult α

instance : Monad DbM where
  pure a := fun s => .ok a s
  bind m f := fun s =>
    match m s with
    | .ok a s' => f a s'
    | .error e s' => .error e s'

def throwDb {α : Type} (e : Err) : DbM α := fun s => .error e s

def getStore : DbM Store := fun s => .ok s s

def setStore (s' : Store) : DbM Unit := fun _ => .ok () s'

/-- Run a pure (store-independent) computation inside `DbM`. -/
def liftE {α : Type} : Except Err α → DbM α
  | .ok a => pure a
  | .error e => throwDb e

/-- The columns `_extract_job_columns` reads with `deep_get` (a missing
path raises); only the key columns the model queries are returned. -/
def extractJobCols (job : Json) : Except Err (String × String × String) := do
  let job_id ← strGet job ["metadata", "job_id"]
  let org_id ← strGet job ["metadata", "org_id"]
  let state ← strGet job ["spec", "status", "state"]
  let _ ← strGet job ["spec", "timestamps", "created_at"]
  let _ ← strGet job ["spec", "timestamps", "expires_at"]
  let _ ← strGet job ["spec", "status", "status_updated_at"]
  pure (job_id, org_id, state)

/-- `SQLiteJobStore.create`: insert keyed by `job_id`, duplicate key is a
conflict. -/
def jobsCreate (job : Json) : DbM Unit := fun st =>
  match extractJobCols job with
  | .error e => .error e st
  | .ok cols =>
    match objGet st.jobs cols.1 with
    | some _ => .error (.conflict ("Job already exists: " ++ cols.1)) st
    | none => .ok () { st with jobs := st.jobs ++ [(cols.1, job)] }

/-- `SQLiteJobStore.get`. -/
def jobsGet (job_id : String) : DbM Json := fun st =>
  match objGet st.jobs job_id with
  | some j => .ok j st
  | none => .error (.notFound "JobContract" job_id) st

/-- `SQLiteJobStore.update`: replace the stored document by `job_id`. -/
def jobsUpdate (job : Json) : DbM Unit := fun st =>
  match extractJobCols job with
  | .error e => .error e st
  | .ok cols =>
    match objGet st.jobs cols.1 with
    | some _ => .ok () { st with jobs := objSet st.jobs cols.1 job }
    | none => .error (.notFound "JobContract" cols.1) st

/-- Derived `org_id`/`state` view of a stored job row, as the extracted
SQL columns hold it. -/
def jobRowActiveFor (org_id : String) (kv : String × Json) : Bool :=
  match deepGetAux kv.2 ["metadata", "org_id"], deepGetAux kv.2 ["spec", "status", "state"] with
  | some o, some s => pyStr o = org_id && (pyStr s = "running" || pyStr s = "waiting")
  | _, _ => false

/-- `SQLiteJobStore.count_active_by_org`: rows with
`state IN ('running','waiting')` for the org. -/
def countActiveByOrg (st : Store) (org_id : String) : Nat :=
  (st.jobs.filter (jobRowActiveFor org_id)).length

/-- `SQLiteJobStore.record_event`: append to the audit log.  The
server-issued UTC timestamp is modelled as the caller-visible clock. -/
def recordEvent (ts : Int) (org_id job_id event_type : String)
    (details : List (String × Json)) : DbM Unit := fun st =>
  .ok () { st with events := st.events ++ [⟨ts, org_id, job_id, event_type, details⟩] }

/-- `SQLiteJobStore.count_events_since` (inclusive of `since`). -/
def countEventsSince (st : Store) (org_id event_type : String) (since : Int) : Nat :=
  (st.events.filter (fun e =>
    e.org_id = org_id && e.event_type = event_type && since ≤ e.ts)).length

/-- The columns `_extract_artifact_columns` reads with `deep_get`. -/
def extractArtifactCols (artifact : Json) : Except Err String := do
  let artifact_id ← strGet artifact ["metadata", "artifact_id"]
  let _ ← strGet artifact ["metadata", "org_id"]
  let _ ← strGet artifact ["metadata", "artifact_type"]
  let _ ← strGet artifact ["spec", "job_ref", "job_id"]
  let _ ← strGet artifact ["spec", "created_at"]
  let _ ← strGet artifact ["spec", "produced_by", "agent_id"]
  pure artifact_id

/-- `SQLiteArtifactStore.append`: append-only, duplicate id is a conflict. -/
def artifactsAppend (artifact : Json) : DbM Unit := fun st =>
  match extractArtifactCols artifact with
  | .error e => .error e st
  | .ok artifact_id =>
    match objGet st.artifacts artifact_id with
    | some _ => .error (.conflict ("Artifact already exists: " ++ artifact_id)) st
    | none => .ok () { st with artifacts := st.artifacts ++ [(artifact_id, artifact)] }

/-- Python attribute access `.get` on a value that must be a dict. -/
def attrDict : Json → Except Err (List (String × Json))
  | .obj fs => .ok fs
  | _ => .error (.typeError "object has no attribute get")

/-- The columns `_extract_evaluation_columns` reads. -/
def extractEvaluationCols (evaluation : Json) : Except Err String := do
  let evaluation_id ← strGet evaluation ["metadata", "evaluation_id"]
  let _ ← strGet evaluation ["metadata", "org_id"]
  let _ ← strGet evaluation ["spec", "job_ref", "job_id"]
  let _ ← strGet evaluation ["spec", "created_at"]
  let _ ← strGet evaluation ["spec", "outcome", "status"]
  let _ ← strGet evaluation ["spec", "outcome", "next_job_state"]
  let evaluator ← deep_get evaluation ["spec", "evaluator"]
  let _ ← attrDict evaluator
  pure evaluation_id

/-- `SQLiteEvaluationStore.append`. -/
def evaluationsAppend (evaluation : Json) : DbM Unit := fun st =>
  match extractEvaluationCols evaluation with
  | .error e => .error e st
  | .ok evaluation_id =>
    match objGet st.evaluations evaluation_id with
    | some _ => .error (.conflict ("Evaluation already exists: " ++ evaluation_id)) st
    | none => .ok () { st with evaluations := st.evaluations ++ [(evaluation_id, evaluation)] }

/-! ## Registry (`registry/registry.py`) -/

/-- The immutable registry snapshot.  Loading and agent-ref resolution are
filesystem-based (`registry/loader.py` walks the repository tree), so the
reachable-agents view `included_agent_ids_for_org` computes is carried as a
precomputed map alongside the indexed documents. -/
structure Registry where
  orgs : List (String × Json)
  agents : List (String × Json)
  includedAgents : List (String × List String)
deriving Repr

def Registry.has_org (r : Registry) (org_id : String) : Bool :=
  (objGet r.orgs org_id).isSome

def Registry.get_org (r : Registry) (org_id : String) : Except Err Json :=
  match objGet r.orgs org_id with
  | some d => .ok d
  | none => .error (.policyViolation ("Unknown org_id (not in registry): " ++ org_id))

def Registry.get_agent (r : Registry) (agent_id : String) : Except Err Json :=
  match objGet r.agents agent_id with
  | some d => .ok d
  | none => .error (.policyViolation ("Unknown agent_id (not in registry): " ++ agent_id))

def Registry.included_agent_ids_for_org (r : Registry) (org_id : String) :
    Except Err (List String) := do
  let _ ← r.get_org org_id
  pure (((objGet (r.includedAgents.map (fun kv => (kv.1, Json.arr (kv.2.map Json.str)))) org_id).map
    (fun j => match j with | .arr xs => xs.map pyStr | _ => [])).getD [])

/-! ## Policy evaluator (`executor/policy.py`) -/

/-- `config/settings.LimitsConfig` (the six global upper bounds plus
`require_known_org`). -/
structure LimitsConfig where
  max_iterations_upper_bound : Int
  max_runtime_seconds_upper_bound : Int
  max_cost_upper_bound_currency : String
  max_cost_upper_bound : Int
  max_expires_in_seconds_upper_bound : Int
  require_known_org : Bool
deriving Repr, DecidableEq

/-- Python `d.get(k)`: `None` when the key is absent. -/
def pyGet (fields : List (String × Json)) (k : String) : Json :=
  (objGet fields k).getD .null

/-- Python `d.get(k, dflt)` followed by `str(...)` on a present value. -/
def pyStrD (v : Option Json) (dflt : String) : String :=
  match v with
  | some j => pyStr j
  | none => dflt

/-- `policy._as_list`: `None` becomes `[]`, a list passes, anything else
is a policy violation. -/
def _as_list : Json → Except Err (List Json)
  | .null => .ok []
  | .arr xs => .ok xs
  | _ => .error (.policyViolation "Expected list")

/-- `policy._as_dict`. -/
def _as_dict : Json → Except Err (List (String × Json))
  | .obj fs => .ok fs
  | _ => .error (.policyViolation "Expected object")

/-- Python `x or {}` for the falsy document values that occur here. -/
def orEmptyObj : Json → Json
  | .null => .obj []
  | .bool false => .obj []
  | .num 0 => .obj []
  | .str "" => .obj []
  | .arr [] => .obj []
  | j => j

/-- `int(x)` on a `deep_get` result (always present). -/
def pyIntJ : Json → Except Err Int
  | .num n => .ok n
  | _ => .error (.typeError "int() argument must be a number")

/-- `list(map(str, _as_list(v)))` / `set(map(str, _as_list(v)))`; the sets
built this way are only used for membership, so the list keeps them. -/
def strList (v : Json) : Except Err (List String) := do
  pure ((← _as_list v).map pyStr)

/-- `enforce_job_contract_submission_shape`, forbidden-keys loop. -/
def checkForbiddenStatusKeys (status : List (String × Json)) : List String → Except Err Unit
  | [] => .ok ()
  | f :: rest =>
    if (objGet status f).isSome then
      .error (.policyViolation ("JobContract.spec.status must not include '" ++ f ++ "' when state=created"))
    else checkForbiddenStatusKeys status rest

/-- `policy.enforce_job_contract_submission_shape`. -/
def enforce_job_contract_submission_shape (job : Json) : Except Err Unit := do
  let status ← _as_dict (← deep_get job ["spec", "status"])
  if pyGet status "state" = Json.str "created" then
    checkForbiddenStatusKeys status
      ["started_at", "terminal_at", "final_evaluation_ref", "failure_mode", "expiry_reason"]
  else
    throw (.policyViolation "JobContract.status.state must be 'created' at submission time")

/-- `policy.enforce_job_contract_limits`: the global hard limits. -/
def enforce_job_contract_limits (job : Json) (limits : LimitsConfig) (now : Int) :
    Except Err Unit := do
  let created_at ← parseTime (← deep_get job ["spec", "timestamps", "created_at"])
  let expires_at ← parseTime (← deep_get job ["spec", "timestamps", "expires_at"])
  if expires_at ≤ created_at then
    throw (.policyViolation "JobContract.spec.timestamps.expires_at must be after created_at")
  if expires_at ≤ now then
    throw (.policyViolation "JobContract is already expired (expires_at is in the past)")
  if expires_at - created_at > limits.max_expires_in_seconds_upper_bound then
    throw (.policyViolation "JobContract expires_at exceeds global upper bound")
  let exec_limits ← _as_dict (← deep_get job ["spec", "execution_limits"])
  let max_iterations ← pyInt (objGet exec_limits "max_iterations")
  let max_runtime_seconds ← pyInt (objGet exec_limits "max_runtime_seconds")
  let cost_cap ← _as_dict (pyGet exec_limits "cost_cap")
  let currency := pyStrOpt (objGet cost_cap "currency")
  let max_cost ← pyFloat (objGet cost_cap "max_cost")
  if max_iterations > limits.max_iterations_upper_bound then
    throw (.policyViolation "JobContract.max_iterations exceeds global upper bound")
  if max_runtime_seconds > limits.max_runtime_seconds_upper_bound then
    throw (.policyViolation "JobContract.max_runtime_seconds exceeds global upper bound")
  if currency ≠ limits.max_cost_upper_bound_currency then
    throw (.policyViolation ("JobContract.cost_cap.currency must be " ++ limits.max_cost_upper_bound_currency ++ " (got " ++ currency ++ ")"))
  if max_cost > limits.max_cost_upper_bound then
    throw (.policyViolation "JobContract.cost_cap.max_cost exceeds global upper bound")
  pure ()

/-- `{str(_as_dict(x).get("type_id")) for x in ...}` (and the analogous
comprehensions): every element must be a dict; the ids keep list form. -/
def typeIdSet : List Json → Except Err (List String)
  | [] => .ok []
  | x :: rest => do
    let obj ← _as_dict x
    let restIds ← typeIdSet rest
    .ok (pyStrOpt (objGet obj "type_id") :: restIds)

/-- `_enforce_required_artifacts_allowed`, per-artifact loop. -/
def checkRequiredArtifacts (allowed denied : List String) : List Json → Except Err Unit
  | [] => .ok ()
  | ra :: rest => do
    let ra_obj ← _as_dict ra
    let a_type := pyStrOpt (objGet ra_obj "artifact_type")
    if denied.contains a_type then
      throw (.policyViolation ("Artifact type is explicitly denied by org policy: " ++ a_type))
    else if !(allowed.contains a_type) then
      throw (.policyViolation ("Artifact type is not allowed by org policy: " ++ a_type))
    else
      checkRequiredArtifacts allowed denied rest

/-- `policy._enforce_required_artifacts_allowed`. -/
def _enforce_required_artifacts_allowed (job org : Json) : Except Err Unit := do
  let required ← _as_list (← deep_get job ["spec", "required_artifacts"])
  let artifact_policy ← _as_dict (← deep_get org ["spec", "artifact_policy"])
  let allowed_types ← _as_list (pyGet artifact_policy "allowed_types")
  let denied_types ← _as_list (pyGet artifact_policy "denied_types")
  let allowed_ids ← typeIdSet allowed_types
  let denied_ids ← typeIdSet denied_types
  checkRequiredArtifacts allowed_ids denied_ids required

/-- The skill-id loop of `_enforce_permissions_snapshot`: deny first, then
allow, then the org default rule. -/
def checkSkillIds (deny allow : List String) (org_default : String) :
    List String → Except Err Unit
  | [] => .ok ()
  | sid :: rest =>
    if deny.contains sid then
      .error (.policyViolation ("Job permissions_snapshot includes denied skill_id: " ++ sid))
    else if allow.contains sid then
      checkSkillIds deny allow org_default rest
    else if org_default = "allow" then
      checkSkillIds deny allow org_default rest
    else
      .error (.policyViolation ("Job permissions_snapshot skill_id not allowed by org policy: " ++ sid))

/-- The skill-category loop of `_enforce_permissions_snapshot`. -/
def checkSkillCats (deny allow : List String) (org_default : String) :
    List String → Except Err Unit
  | [] => .ok ()
  | cat :: rest =>
    if deny.contains cat then
      .error (.policyViolation ("Job permissions_snapshot includes denied skill_category: " ++ cat))
    else if allow.contains cat then
      checkSkillCats deny allow org_default rest
    else if org_default = "allow" then
      checkSkillCats deny allow org_default rest
    else
      .error (.policyViolation ("Job permissions_snapshot skill_category not allowed by org policy: " ++ cat))

/-- The inputs the skills section of `_enforce_permissions_snapshot`
extracts from the job and the org manifest. -/
structure SkillInputs where
  deny_ids : List String
  allow_ids : List String
  deny_cats : List String
  allow_cats : List String
  org_default : String
  job_ids : List String
  job_cats : List String
deriving Repr, DecidableEq

/-- Extraction phase of the skills section of
`_enforce_permissions_snapshot` (source lines up to the two loops). -/
def extractSkillInputs (job org : Json) : Except Err SkillInputs := do
  let snapshot ← _as_dict (← deep_get job ["spec", "permissions_snapshot"])
  let org_skill_policy ← _as_dict (← deep_get org ["spec", "skill_policy"])
  let org_default := pyStrOpt (objGet org_skill_policy "default_rule")
  let org_allow ← _as_dict (orEmptyObj (pyGet org_skill_policy "allow"))
  let org_deny ← _as_dict (orEmptyObj (pyGet org_skill_policy "deny"))
  let allow_skill_ids ← strList (pyGet org_allow "skill_ids")
  let allow_skill_cats ← strList (pyGet org_allow "skill_categories")
  let deny_skill_ids ← strList (pyGet org_deny "skill_ids")
  let deny_skill_cats ← strList (pyGet org_deny "skill_categories")
  let job_skills ← _as_dict (pyGet snapshot "skills")
  let job_skill_ids ← strList (pyGet job_skills "allowed_skill_ids")
  let job_skill_cats ← strList (pyGet job_skills "allowed_skill_categories")
  pure ⟨deny_skill_ids, allow_skill_ids, deny_skill_cats, allow_skill_cats,
    org_default, job_skill_ids, job_skill_cats⟩

/-- Skills section of `_enforce_permissions_snapshot`. -/
def snapshotSkillChecks (job org : Json) : Except Err Unit := do
  let si ← extractSkillInputs job org
  checkSkillIds si.deny_ids si.allow_ids si.org_default si.job_ids
  checkSkillCats si.deny_cats si.allow_cats si.org_default si.job_cats

/-- Building `org_mcp_by_id` (later entries overwrite earlier ones, as in
a Python dict filled in order). -/
def buildMcpIndex : List Json → List (String × Json) → Except Err (List (String × Json))
  | [], acc => .ok acc
  | item :: rest, acc => do
    let obj ← _as_dict item
    buildMcpIndex rest (objSet acc (pyStrOpt (objGet obj "mcp_id")) (.obj obj))

/-- Per-entry MCP checks of `_enforce_permissions_snapshot`. -/
def checkMcpItems (org_by_id : List (String × Json)) : List Json → Except Err Unit
  | [] => .ok ()
  | item :: rest => do
    let obj ← _as_dict item
    let mcp_id := pyStrOpt (objGet obj "mcp_id")
    match objGet org_by_id mcp_id with
    | none =>
      throw (.policyViolation ("Job permissions_snapshot includes MCP not allowed by org: " ++ mcp_id))
    | some orgVal => do
      let org_obj ← _as_dict orgVal
      if pyStrOpt (objGet obj "ref") ≠ pyStrOpt (objGet org_obj "ref") then
        throw (.policyViolation ("Job MCP ref does not match org registry for " ++ mcp_id))
      let org_scopes ← strList (pyGet org_obj "allowed_scopes")
      let job_scopes ← _as_list (pyGet obj "allowed_scopes")
      if !org_scopes.isEmpty then
        if job_scopes.isEmpty then
          throw (.policyViolation ("Job must declare allowed_scopes for MCP " ++ mcp_id ++ " (org requires scoped access)"))
        else if !((job_scopes.map pyStr).all (fun s => org_scopes.contains s)) then
          throw (.policyViolation ("Job allowed_scopes for MCP " ++ mcp_id ++ " exceed org allowed_scopes"))
        else pure ()
      else pure ()
      checkMcpItems org_by_id rest

/-- MCP section of `_enforce_permissions_snapshot`. -/
def snapshotMcpCheck (job org : Json) : Except Err Unit := do
  let snapshot ← _as_dict (← deep_get job ["spec", "permissions_snapshot"])
  let org_mcp_allowed ← _as_list (← deep_get org ["spec", "external_access", "mcp", "allowed"])
  let org_by_id ← buildMcpIndex org_mcp_allowed []
  let job_mcp_allowed ← _as_list (← deep_get (Json.obj snapshot) ["mcp", "allowed"])
  checkMcpItems org_by_id job_mcp_allowed

/-- `_subset_list` inside the direct-network section. -/
def subsetListCheck (org_deny : List (String × Json)) (job_list org_list : Json)
    (label : String) : Except Err Unit := do
  let j ← strList job_list
  let o ← strList org_list
  if !(j.all fun s => o.contains s) then
    throw (.policyViolation ("Job direct network allowlist '" ++ label ++ "' exceeds org allowlist"))
  let deny ← strList (pyGet org_deny label)
  if j.any (fun s => deny.contains s) then
    throw (.policyViolation ("Job direct network allowlist '" ++ label ++ "' includes org-denied entries"))
  pure ()

/-- Direct-external-network section of `_enforce_permissions_snapshot`. -/
def snapshotNetworkCheck (job org : Json) : Except Err Unit := do
  let snapshot ← _as_dict (← deep_get job ["spec", "permissions_snapshot"])
  let org_net ← _as_dict (← deep_get org ["spec", "external_access", "direct_network"])
  let job_net ← _as_dict (← deep_get (Json.obj snapshot) ["direct_external_network"])
  let org_policy := pyStrOpt (objGet org_net "policy")
  let job_policy := pyStrOpt (objGet job_net "policy")
  if org_policy = "deny_all" ∧ job_policy ≠ "deny_all" then
    throw (.policyViolation "Org policy denies all direct network; job must set direct_external_network.policy=deny_all")
  if org_policy = "allowlist" ∧ job_policy = "allowlist" then
    let org_allow ← _as_dict (orEmptyObj (pyGet org_net "allowlist"))
    let org_deny ← _as_dict (orEmptyObj (pyGet org_net "denylist"))
    let job_allow ← _as_dict (orEmptyObj (pyGet job_net "allowlist"))
    subsetListCheck org_deny (pyGet job_allow "domains") (pyGet org_allow "domains") "domains"
    subsetListCheck org_deny (pyGet job_allow "urls") (pyGet org_allow "urls") "urls"
    subsetListCheck org_deny (pyGet job_allow "ip_cidrs") (pyGet org_allow "ip_cidrs") "ip_cidrs"
  else
    pure ()

/-- `policy._enforce_permissions_snapshot`: skills, MCP, then network, in
source order. -/
def _enforce_permissions_snapshot (job org : Json) : Except Err Unit := do
  snapshotSkillChecks job org
  snapshotMcpCheck job org
  snapshotNetworkCheck job org

/-- `policy._enforce_execution_limits_vs_org`. -/
def _enforce_execution_limits_vs_org (job org : Json) : Except Err Unit := do
  let job_exec ← _as_dict (← deep_get job ["spec", "execution_limits"])
  let org_exec ← _as_dict (← deep_get org ["spec", "execution_limits"])
  let org_cost_caps ← _as_dict (pyGet org_exec "cost_caps")
  let org_currency := pyStrOpt (objGet org_cost_caps "currency")
  let org_max_cost_per_job ← pyFloat (objGet org_cost_caps "max_cost_per_job")
  let job_cost_cap ← _as_dict (pyGet job_exec "cost_cap")
  let job_currency := pyStrOpt (objGet job_cost_cap "currency")
  let job_max_cost ← pyFloat (objGet job_cost_cap "max_cost")
  if job_currency ≠ org_currency then
    throw (.policyViolation ("Job cost_cap currency " ++ job_currency ++ " must match org currency " ++ org_currency))
  if job_max_cost > org_max_cost_per_job then
    throw (.policyViolation "Job cost_cap.max_cost exceeds org max_cost_per_job")
  let org_timeouts ← _as_dict (pyGet org_exec "timeouts")
  let org_max_runtime ← pyInt (objGet org_timeouts "max_job_runtime_seconds")
  let job_max_runtime ← pyInt (objGet job_exec "max_runtime_seconds")
  if job_max_runtime > org_max_runtime then
    throw (.policyViolation "Job max_runtime_seconds exceeds org max_job_runtime_seconds")
  pure ()

/-- `policy.enforce_job_within_org_policy`. -/
def enforce_job_within_org_policy (job org : Json) : Except Err Unit := do
  _enforce_required_artifacts_allowed job org
  _enforce_permissions_snapshot job org
  _enforce_execution_limits_vs_org job org

/-! ## Job engine (`executor/engine.py`) -/

/-- The collaborators a request handler is built from (`AppComponents` /
`JobEngine.__init__`): the schema validator is the abstract per-kind
validation function (the schema files live outside the core sources). -/
structure Components where
  validate : String → Json → Except Err Unit
  registry : Registry
  limits : LimitsConfig
  execution_deferred : Bool

/-- The `require_known_org` gate inside `submit_job`. -/
def requireKnownOrgCheck (C : Components) (org_id : String) : DbM Unit :=
  if C.limits.require_known_org ∧ !(C.registry.has_org org_id) then
    throwDb (.policyViolation ("Unknown org_id (registry.require_known_org=true): " ++ org_id))
  else pure ()

/-- The known-org policy projection inside `submit_job`. -/
def orgPolicyCheck (C : Components) (job : Json) (org_id : String) : DbM Unit :=
  if C.registry.has_org org_id then do
    let org ← liftE (C.registry.get_org org_id)
    liftE (enforce_job_within_org_policy job org)
  else pure ()

/-- `JobEngine.submit_job`. -/
def submit_job (C : Components) (job : Json) (now : Int) : DbM Json := do
  liftE (C.validate "JobContract" job)
  liftE (enforce_job_contract_submission_shape job)
  liftE (enforce_job_contract_limits job C.limits now)
  let org_id ← liftE (strGet job ["metadata", "org_id"])
  requireKnownOrgCheck C org_id
  orgPolicyCheck C job org_id
  jobsCreate job
  let job_id ← liftE (strGet job ["metadata", "job_id"])
  recordEvent now org_id job_id "job_submitted" [("state", .str "created")]
  pure job

/-- The created-or-waiting guard inside `run_job`. -/
def runStateCheck (state : String) : DbM Unit :=
  if state ≠ "created" ∧ state ≠ "waiting" then
    throwDb (.conflict ("Job must be in created|waiting to run (current=" ++ state ++ ")"))
  else pure ()

/-- The concurrency checks of the run gate, over the extracted limit and
the active-row count. -/
def activeJobsCheck (max_active_jobs : Int) (state : String) (active : Nat) : DbM Unit :=
  if max_active_jobs ≤ 0 then
    throwDb (.policyViolation ("Org execution is disabled (max_active_jobs=" ++ toString max_active_jobs ++ ")"))
  else if state = "created" ∧ max_active_jobs ≤ (active : Int) then
    throwDb (.policyViolation "Org max_active_jobs limit reached")
  else if state = "waiting" ∧ max_active_jobs < (active : Int) then
    throwDb (.policyViolation "Org max_active_jobs limit reached")
  else pure ()

/-- The rate-limit checks of the run gate. -/
def rateLimitCheck (max_starts : Int) (starts : Nat) : DbM Unit :=
  if max_starts ≤ 0 then
    throwDb (.policyViolation ("Org job starts are disabled (max_job_starts_per_minute=" ++ toString max_starts ++ ")"))
  else if max_starts ≤ (starts : Int) then
    throwDb (.policyViolation "Org rate limit exceeded (max_job_starts_per_minute)")
  else pure ()

/-- The org execution-limits gate of `run_job` (concurrency plus rate),
applied only when the org is in the registry. -/
def orgRunLimitsGate (C : Components) (org_id state : String) (now : Int) : DbM Unit :=
  if C.registry.has_org org_id then do
    let org ← liftE (C.registry.get_org org_id)
    let org_exec ← liftE (deep_get org ["spec", "execution_limits"])
    let mav ← liftE (deep_get org_exec ["concurrency", "max_active_jobs"])
    let max_active_jobs ← liftE (pyIntJ mav)
    let st ← getStore
    activeJobsCheck max_active_jobs state (countActiveByOrg st org_id)
    let msv ← liftE (deep_get org_exec ["rate_limits", "max_job_starts_per_minute"])
    let max_starts ← liftE (pyIntJ msv)
    rateLimitCheck max_starts (countEventsSince st org_id "job_started" (now - 60))
  else pure ()

/-- `JobEngine.run_job`.  The two `utcnow()` calls the source makes (once
on entry, once before the deferred `running → waiting` transition) are the
two clock arguments. -/
def run_job (C : Components) (job_id : String) (now now2 : Int) : DbM Json := do
  let job ← jobsGet job_id
  let org_id ← liftE (strGet job ["metadata", "org_id"])
  let expires_at ← liftE (parseTime (← liftE (deep_get job ["spec", "timestamps", "expires_at"])))
  if expires_at ≤ now then do
    let expired ← liftE (apply_transition job
      { new_state := "expired", now := now, expiry_reason := some "expires_at_reached" })
    liftE (C.validate "JobContract" expired)
    jobsUpdate expired
    recordEvent now org_id job_id "job_expired" [("reason", .str "expires_at_reached")]
    pure expired
  else do
    let state ← liftE (strGet job ["spec", "status", "state"])
    runStateCheck state
    orgRunLimitsGate C org_id state now
    let running ← liftE (apply_transition job { new_state := "running", now := now })
    liftE (C.validate "JobContract" running)
    jobsUpdate running
    recordEvent now org_id job_id "job_started" [("previous_state", .str state)]
    if C.execution_deferred then do
      let waiting ← liftE (apply_transition running { new_state := "waiting", now := now2 })
      liftE (C.validate "JobContract" waiting)
      jobsUpdate waiting
      recordEvent now2 org_id job_id "execution_deferred"
        [("reason", .str "agent_execution_not_implemented"), ("build_mode", .bool true)]
      pure waiting
    else
      pure running

/-! ## Artifact admission (`api/main.py`) -/

/-- `main._as_list`: non-lists (including `None`) become `[]`. -/
def apiAsList : Json → List Json
  | .arr xs => xs
  | _ => []

/-- `main._enforce_artifact_policy`. -/
def _enforce_artifact_policy (C : Components) (artifact : Json) : DbM Unit := do
  let job_id ← liftE (strGet artifact ["spec", "job_ref", "job_id"])
  let org_id ← liftE (strGet artifact ["metadata", "org_id"])
  let artifact_type ← liftE (strGet artifact ["metadata", "artifact_type"])
  let producing_agent_id ← liftE (strGet artifact ["spec", "produced_by", "agent_id"])
  let job ← jobsGet job_id
  let job_org_id ← liftE (strGet job ["metadata", "org_id"])
  if job_org_id ≠ org_id then
    throwDb (.policyViolation "Artifact.metadata.org_id must match JobContract.metadata.org_id")
  let state ← liftE (strGet job ["spec", "status", "state"])
  if state = "completed" ∨ state = "failed" ∨ state = "expired" then
    throwDb (.conflict ("Cannot submit artifact for terminal job (state=" ++ state ++ ")"))
  if !(C.registry.has_org org_id) then
    throwDb (.policyViolation ("Unknown org_id: " ++ org_id))
  let org ← liftE (C.registry.get_org org_id)
  let allowedRaw ← liftE (deep_get org ["spec", "artifact_policy", "allowed_types"])
  let allowed ← liftE (typeIdSet (apiAsList allowedRaw))
  if !(allowed.contains artifact_type) then
    throwDb (.policyViolation ("Artifact type " ++ artifact_type ++ " is not allowed by org policy"))
  let included ← liftE (C.registry.included_agent_ids_for_org org_id)
  if producing_agent_id ≠ "" ∧ !(included.contains producing_agent_id) then
    throwDb (.policyViolation ("Producing agent " ++ producing_agent_id ++ " is not included in org " ++ org_id))
  pure ()

/-- `main.submit_artifact` (the `POST /artifacts` handler): validate,
enforce policy, append to the artifact store — and nothing else. -/
def submit_artifact (C : Components) (artifact : Json) : DbM Json := do
  liftE (C.validate "Artifact" artifact)
  _enforce_artifact_policy C artifact
  artifactsAppend artifact
  pure artifact

/-! ## Evaluation service (`evaluator/service.py`) -/

/-- `service._evaluation_ref`. -/
def evaluation_ref (evaluation_id : String) : String :=
  "evaluations/" ++ evaluation_id

/-- The self-evaluation scan over `spec.artifact_decisions`. -/
def checkSelfEvalList (actor_id : String) : List Json → Except Err Unit
  | [] => .ok ()
  | d :: rest =>
    match d with
    | .obj fs =>
      if pyStrD (objGet fs "producing_agent_id") "" ≠ "" ∧
          pyStrD (objGet fs "producing_agent_id") "" = actor_id then
        .error (.policyViolation "Self-evaluation is prohibited (evaluator matches producing_agent_id)")
      else checkSelfEvalList actor_id rest
    | _ => checkSelfEvalList actor_id rest

/-- `isinstance(decisions, list)` guard plus the scan. -/
def checkSelfEvaluation (actor_id : String) (decisions : Json) : Except Err Unit :=
  match decisions with
  | .arr ds => checkSelfEvalList actor_id ds
  | _ => .ok ()

/-- The evaluation/job org match guard of `EvaluationService.submit`. -/
def evalOrgMatchCheck (job_org_id org_id : String) : DbM Unit :=
  if job_org_id ≠ org_id then
    throwDb (.policyViolation "Evaluation.metadata.org_id must match JobContract.metadata.org_id")
  else pure ()

/-- The terminal-job guard of `EvaluationService.submit`. -/
def evalTerminalCheck (current : String) : DbM Unit :=
  if is_terminal current then
    throwDb (.conflict ("Cannot apply evaluation to terminal job (state=" ++ current ++ ")"))
  else pure ()

/-- The expiry gate of `EvaluationService.submit`: on a stale non-terminal
job, expire it, validate and persist the expired document, record
`job_expired` — and only then reject the evaluation as conflicting. -/
def evalExpiryGate (C : Components) (job : Json) (org_id job_id : String)
    (expires_at now : Int) (stateAgain : String) : DbM Unit :=
  if expires_at ≤ now ∧ !(is_terminal stateAgain) then do
    let expired ← liftE (apply_transition job
      { new_state := "expired", now := now, expiry_reason := some "expires_at_reached" })
    liftE (C.validate "JobContract" expired)
    jobsUpdate expired
    recordEvent now org_id job_id "job_expired" [("reason", .str "expires_at_reached")]
    throwDb (.conflict "Job is expired; evaluation cannot be applied")
  else pure ()

/-- The authority-level guard inside the evaluator identity checks. -/
def evalAuthorityCheck (agent_authority declared_authority : String) : DbM Unit :=
  if agent_authority ≠ declared_authority then
    throwDb (.policyViolation "Evaluation evaluator authority_level does not match AgentDefinition authority level")
  else pure ()

/-- The registry-membership guard inside the evaluator identity checks. -/
def evalOrgKnownCheck (C : Components) (org_id : String) : DbM Unit :=
  if !(C.registry.has_org org_id) then
    throwDb (.policyViolation "Cannot validate evaluator membership: org_id not found in registry")
  else pure ()

/-- The org-inclusion guard inside the evaluator identity checks. -/
def evalMembershipCheck (included : List String) (actor_id : String) : DbM Unit :=
  if !(included.contains actor_id) then
    throwDb (.policyViolation "Evaluator agent is not included in OrganizationManifest.spec.agent_roles")
  else pure ()

/-- The agent-evaluator identity and authority checks. -/
def evalIdentityChecks (C : Components) (org_id actor_type actor_id declared_authority : String) :
    DbM Unit :=
  if actor_type = "agent" then do
    let agent ← liftE (C.registry.get_agent actor_id)
    let agent_authority ← liftE (strGet agent ["spec", "authority", "level"])
    evalAuthorityCheck agent_authority declared_authority
    evalOrgKnownCheck C org_id
    let included ← liftE (C.registry.included_agent_ids_for_org org_id)
    evalMembershipCheck included actor_id
  else pure ()

/-- The no-self-evaluation scan over `spec.artifact_decisions`. -/
def evalSelfEvalGate (actor_type actor_id : String) (evaluation : Json) : DbM Unit :=
  if actor_type = "agent" then do
    let decisions ← liftE (deep_get evaluation ["spec", "artifact_decisions"])
    liftE (checkSelfEvaluation actor_id decisions)
  else pure ()

/-- The outcome-driven transition of `EvaluationService.submit`. -/
def evalOutcomeTransition (job : Json) (desired final_ref : String) (now : Int) : DbM Json :=
  if desired = "completed" then
    liftE (apply_transition job
      { new_state := "completed", now := now, final_evaluation_ref := some final_ref,
        last_stop_condition := some "evaluation_passed" })
  else if desired = "failed" then
    liftE (apply_transition job
      { new_state := "failed", now := now, final_evaluation_ref := some final_ref,
        failure_mode := some "evaluation_failure", last_stop_condition := some "evaluation_failed" })
  else if desired = "running" ∨ desired = "waiting" then
    liftE (apply_transition job { new_state := desired, now := now })
  else
    throwDb (.policyViolation ("Invalid evaluation next_job_state: " ++ desired))

/-- `EvaluationService.submit`. -/
def submit_evaluation (C : Components) (evaluation : Json) (now : Int) : DbM (Json × Json) := do
  liftE (C.validate "Evaluation" evaluation)
  let evaluation_id ← liftE (strGet evaluation ["metadata", "evaluation_id"])
  let org_id ← liftE (strGet evaluation ["metadata", "org_id"])
  let job_id ← liftE (strGet evaluation ["spec", "job_ref", "job_id"])
  let job ← jobsGet job_id
  let job_org_id ← liftE (strGet job ["metadata", "org_id"])
  evalOrgMatchCheck job_org_id org_id
  let current ← liftE (strGet job ["spec", "status", "state"])
  evalTerminalCheck current
  let expires_at ← liftE (parseTime (← liftE (deep_get job ["spec", "timestamps", "expires_at"])))
  let stateAgain ← liftE (strGet job ["spec", "status", "state"])
  evalExpiryGate C job org_id job_id expires_at now stateAgain
  let evaluator ← liftE (deep_get evaluation ["spec", "evaluator"])
  let evd ← liftE (attrDict evaluator)
  let actor_type := pyStrOpt (objGet evd "actor_type")
  let actor_id := pyStrOpt (objGet evd "actor_id")
  let declared_authority := pyStrOpt (objGet evd "authority_level")
  evalIdentityChecks C org_id actor_type actor_id declared_authority
  evalSelfEvalGate actor_type actor_id evaluation
  let desired ← liftE (strGet evaluation ["spec", "outcome", "next_job_state"])
  let updated ← evalOutcomeTransition job desired (evaluation_ref evaluation_id) now
  liftE (C.validate "JobContract" updated)
  evaluationsAppend evaluation
  recordEvent now org_id job_id "evaluation_submitted" [("evaluation_id", .str evaluation_id)]
  jobsUpdate updated
  recordEvent now org_id job_id "job_state_changed" [("from", .str current), ("to", .str desired)]
  pure (evaluation, updated)

/-! ## Schema validator post-processing (`registry/schema_validator.py`) -/

/-- An element of a `jsonschema` error path: an array index or a key. -/
inductive PathToken where
  | idx (n : Nat) : PathToken
  | key (s : String) : PathToken
deriving Repr, DecidableEq

/-- One raw error as the underlying `jsonschema` validator yields it. -/
structure RawError where
  absolute_path : List PathToken
  message : String
deriving Repr, DecidableEq

/-- Python `str.replace` for a single-character needle, over the
code-point sequence. -/
def replaceChar (needle : Char) (repl : List Char) : List Char → List Char
  | [] => []
  | c :: cs =>
    if c = needle then repl ++ replaceChar needle repl cs
    else c :: replaceChar needle repl cs

/-- `_escape_json_pointer_token` (RFC 6901):
`token.replace("~", "~0").replace("/", "~1")`. -/
def escapeJsonPointerToken (t : String) : String :=
  String.mk (replaceChar '/' ['~', '1'] (replaceChar '~' ['~', '0'] t.data))

/-- `_json_pointer`. -/
def jsonPointer (path : List PathToken) : String :=
  match path with
  | [] => "/"
  | _ =>
    "/" ++ String.intercalate "/" (path.map fun p =>
      match p with
      | .idx n => toString n
      | .key s => escapeJsonPointerToken s)

/-- The `(path, message)` sort key order used by `violations.sort`:
lexicographic on the code-point sequences, exactly Python's tuple-of-str
comparison (expressed over `String.data` so it is kernel-computable). -/
def violLe (a b : SchemaViolation) : Prop :=
  a.path.data < b.path.data ∨ (a.path = b.path ∧ a.message.data ≤ b.message.data)

instance : DecidableRel violLe := fun a b => by
  unfold violLe
  infer_instance

instance : IsTotal SchemaViolation violLe := by
  constructor
  intro a b
  rcases lt_trichotomy a.path.data b.path.data with h | h | h
  · exact Or.inl (Or.inl h)
  · have hp : a.path = b.path := String.ext h
    rcases le_total a.message.data b.message.data with hm | hm
    · exact Or.inl (Or.inr ⟨hp, hm⟩)
    · exact Or.inr (Or.inr ⟨hp.symm, hm⟩)
  · exact Or.inr (Or.inl h)

instance : IsTrans SchemaViolation violLe := by
  constructor
  intro a b c hab hbc
  rcases hab with h1 | ⟨h1, m1⟩ <;> rcases hbc with h2 | ⟨h2, m2⟩
  · exact Or.inl (h1.trans h2)
  · exact Or.inl (by rw [← h2]; exact h1)
  · exact Or.inl (by rw [h1]; exact h2)
  · exact Or.inr ⟨h1.trans h2, m1.trans m2⟩

/-- Python's stable `list.sort` under the key `(path, message)`: the sorted
permutation is unique for a total preorder, so a stable insertion sort
models it exactly. -/
def sortViolations (vs : List SchemaViolation) : List SchemaViolation :=
  List.insertionSort violLe vs

/-- `SchemaValidator.validate` over an abstract raw-error enumerator: map
`iter_errors` results to pointer/message pairs, return normally when there
are none, otherwise raise them all, sorted by `(path, message)`. -/
def SchemaValidator.validate (iterErrors : Json → List RawError) (kind : String) (doc : Json) :
    Except Err Unit :=
  if ((iterErrors doc).map (fun e =>
      SchemaViolation.mk (jsonPointer e.absolute_path) e.message)).isEmpty then .ok ()
  else .error (.schemaValidation kind (sortViolations ((iterErrors doc).map (fun e =>
    SchemaViolation.mk (jsonPointer e.absolute_path) e.message))))

/-! ## Basic lemmas about the document model -/

theorem exceptBind_ok {α β : Type} (a : α) (f : α → Except Err β) :
    (Except.ok a >>= f) = f a := rfl

theorem exceptBind_error {α β : Type} (e : Err) (f : α → Except Err β) :
    ((Except.error e : Except Err α) >>= f) = .error e := rfl

theorem objGet_objSet_self (f : List (String × Json)) (k : String) (v : Json) :
    objGet (objSet f k v) k = some v := by
  induction f with
  | nil => simp [objGet, objSet]
  | cons hd tl ih =>
    obtain ⟨k2, v2⟩ := hd
    by_cases h : k2 = k
    · simp [objGet, objSet, h]
    · simp [objGet, objSet, h, ih]

theorem objGet_objSet_ne (f : List (String × Json)) (k k' : String) (v : Json)
    (h : k' ≠ k) :
    objGet (objSet f k v) k' = objGet f k' := by
  induction f with
  | nil => simp [objGet, objSet, Ne.symm h]
  | cons hd tl ih =>
    obtain ⟨k2, v2⟩ := hd
    by_cases h2 : k2 = k
    · subst h2
      simp [objGet, objSet, Ne.symm h]
    · simp [objGet, objSet, h2, ih]

/-- `p` is a (weak) prefix of `q`, over path segments. -/
def isPathPrefix : List String → List String → Bool
  | [], _ => true
  | _ :: _, [] => false
  | a :: as, b :: bs => a == b && isPathPrefix as bs

theorem deepGetAux_setDeep_outside (base : List String) (j : Json) (p : List String) (v : Json)
    (h1 : isPathPrefix base p = false) (h2 : isPathPrefix p base = false) :
    deepGetAux (setDeep j base v) p = deepGetAux j p := by
  induction base generalizing j p with
  | nil => simp [isPathPrefix] at h1
  | cons k bs ih =>
    cases p with
    | nil => simp [isPathPrefix] at h2
    | cons k' ps =>
      cases j with
      | obj fields =>
        simp only [setDeep]
        cases hg : objGet fields k with
        | none => rfl
        | some child =>
          by_cases hk : k' = k
          · subst hk
            simp only [isPathPrefix, beq_self_eq_true, Bool.true_and] at h1 h2
            simp only [deepGetAux, objGet_objSet_self, hg]
            exact ih child ps h1 h2
          · simp only [deepGetAux, objGet_objSet_ne fields k k' _ hk]
      | null => rfl
      | bool b => rfl
      | num n => rfl
      | str s => rfl
      | arr xs => rfl

/-- Successful transitions either hit the same-state no-op or rewrite only
the `spec.status` subtree. -/
theorem apply_transition_ok_shape (job : Json) (req : TransitionRequest) (j' : Json)
    (h : apply_transition job req = .ok j') :
    j' = job ∨ ∃ fields, j' = setDeep job ["spec", "status"] (.obj fields) := by
  unfold apply_transition at h
  cases hget : deep_get job ["spec", "status", "state"] with
  | error e => rw [hget] at h; exact absurd h (by simp [exceptBind_error])
  | ok cur =>
    rw [hget, exceptBind_ok] at h
    by_cases hsame : req.new_state = pyStr cur
    · simp only [hsame, if_pos rfl] at h
      left
      exact (Except.ok.inj h).symm
    · rw [if_neg hsame] at h
      by_cases hterm : is_terminal (pyStr cur) = true
      · rw [if_pos hterm] at h
        exact absurd h (by simp [throw, throwThe, MonadExceptOf.throw])
      · rw [if_neg hterm] at h
        cases hchk : transitionAllowedCheck (pyStr cur) req.new_state with
        | error e => rw [hchk] at h; exact absurd h (by simp [exceptBind_error])
        | ok u =>
          rw [hchk, exceptBind_ok] at h
          cases hst : deep_get job ["spec", "status"] with
          | error e => rw [hst] at h; exact absurd h (by simp [exceptBind_error])
          | ok statusJson =>
            rw [hst, exceptBind_ok] at h
            cases statusJson with
            | obj fields =>
              simp only at h
              cases hb : buildStatusFields fields req with
              | error e => rw [hb] at h; exact absurd h (by simp [exceptBind_error])
              | ok fields2 =>
                rw [hb, exceptBind_ok] at h
                right
                exact ⟨fields2, (Except.ok.inj h).symm⟩
            | null => exact absurd h (by simp [throw, throwThe, MonadExceptOf.throw])
            | bool b => exact absurd h (by simp [throw, throwThe, MonadExceptOf.throw])
            | num n => exact absurd h (by simp [throw, throwThe, MonadExceptOf.throw])
            | str s => exact absurd h (by simp [throw, throwThe, MonadExceptOf.throw])
            | arr xs => exact absurd h (by simp [throw, throwThe, MonadExceptOf.throw])

/-! ## C1: terminal states under `apply_transition` -/

/-- A stored job in the terminal state `completed`. -/
def jobTerminalSame : Json := .obj [
  ("metadata", .obj [("job_id", .str "j-c1"), ("org_id", .str "org-a")]),
  ("spec", .obj [
    ("timestamps", .obj [("created_at", .num 0), ("expires_at", .num 100)]),
    ("status", .obj [
      ("state", .str "completed"),
      ("status_updated_at", .str "1"),
      ("final_evaluation_ref", .str "evaluations/e1"),
      ("terminal_at", .str "1")])])]

/-- A request naming the state the job is already in. -/
def reqTerminalSame : TransitionRequest := { new_state := "completed", now := 7 }

/-- C1 counterexample: a terminal (`completed`) job together with a request
for the same state is returned unchanged by `apply_transition` — the
same-state no-op fires before the terminal check, so no conflict error is
raised, contrary to the claim's "including when `req.new_state` equals the
current state". -/
theorem C1_terminal_same_state_no_conflict :
    is_terminal "completed" = true ∧
    deepGetAux jobTerminalSame ["spec", "status", "state"] = some (.str "completed") ∧
    apply_transition jobTerminalSame reqTerminalSame = .ok jobTerminalSame :=
  ⟨rfl, rfl, rfl⟩

/-- C1 (amended): for a job whose `spec.status.state` is terminal,
`apply_transition` raises a conflict for every request naming a different
state, and returns the document unchanged for a request naming the current
state. -/
theorem C1_terminal_states_absorbing (job : Json) (req : TransitionRequest) (v : Json)
    (h1 : deepGetAux job ["spec", "status", "state"] = some v)
    (hterm : is_terminal (pyStr v) = true) :
    (req.new_state ≠ pyStr v →
      apply_transition job req = .error (.conflict
        ("Job is terminal; cannot transition from " ++ pyStr v ++ " to " ++ req.new_state))) ∧
    (req.new_state = pyStr v → apply_transition job req = .ok job) := by
  have hget : deep_get job ["spec", "status", "state"] = .ok v := by
    simp [deep_get, h1]
  constructor
  · intro hne
    unfold apply_transition
    rw [hget, exceptBind_ok]
    rw [if_neg hne, if_pos hterm]
    simp [throw, throwThe, MonadExceptOf.throw]
  · intro he
    unfold apply_transition
    rw [hget, exceptBind_ok]
    rw [if_pos he]
    rfl

/-- A terminal (`failed`) job used to instantiate the amended C1 theorem. -/
def jobTerminalFailed : Json := .obj [
  ("metadata", .obj [("job_id", .str "j-c1w"), ("org_id", .str "org-a")]),
  ("spec", .obj [
    ("timestamps", .obj [("created_at", .num 0), ("expires_at", .num 100)]),
    ("status", .obj [
      ("state", .str "failed"),
      ("status_updated_at", .str "2"),
      ("final_evaluation_ref", .str "evaluations/e2"),
      ("failure_mode", .str "evaluation_failure"),
      ("terminal_at", .str "2")])])]

/-- Witness for the amended C1 theorem at a concrete terminal job. -/
theorem C1_terminal_states_absorbing_witness :
    apply_transition jobTerminalFailed { new_state := "running", now := 3 } =
      .error (.conflict "Job is terminal; cannot transition from failed to running") ∧
    apply_transition jobTerminalFailed { new_state := "failed", now := 3 } = .ok jobTerminalFailed := by
  constructor
  · exact (C1_terminal_states_absorbing jobTerminalFailed { new_state := "running", now := 3 }
      (.str "failed") rfl rfl).1 (by decide)
  · exact (C1_terminal_states_absorbing jobTerminalFailed { new_state := "failed", now := 3 }
      (.str "failed") rfl rfl).2 rfl

/-! ## C3: status isolation of admitted transitions -/

/-- C3: for every non-erroring `apply_transition`, the result agrees with
the input document at every path that neither extends nor is a prefix of
`spec.status` — every key outside the `spec.status` subtree is identical;
being a pure function over immutable values, the input document itself is
untouched by construction. -/
theorem C3_status_isolation (job : Json) (req : TransitionRequest) (j' : Json)
    (h : apply_transition job req = .ok j')
    (p : List String)
    (hp1 : isPathPrefix ["spec", "status"] p = false)
    (hp2 : isPathPrefix p ["spec", "status"] = false) :
    deepGetAux j' p = deepGetAux job p := by
  rcases apply_transition_ok_shape job req j' h with he | ⟨fields, he⟩
  · rw [he]
  · rw [he]
    exact deepGetAux_setDeep_outside _ _ _ _ hp1 hp2

/-- A `created` job for the C3 witness. -/
def jobFrameW : Json := .obj [
  ("metadata", .obj [("job_id", .str "j-c3"), ("org_id", .str "org-b")]),
  ("spec", .obj [
    ("timestamps", .obj [("created_at", .num 0), ("expires_at", .num 100)]),
    ("status", .obj [("state", .str "created"), ("status_updated_at", .str "0")])])]

/-- The document `apply_transition` produces for `created → running` at
time 5 on `jobFrameW`. -/
def jobFrameW' : Json := .obj [
  ("metadata", .obj [("job_id", .str "j-c3"), ("org_id", .str "org-b")]),
  ("spec", .obj [
    ("timestamps", .obj [("created_at", .num 0), ("expires_at", .num 100)]),
    ("status", .obj [
      ("state", .str "running"),
      ("status_updated_at", .str "5"),
      ("started_at", .str "5")])])]

/-- Witness for C3 at a concrete admitted transition and concrete outside
paths. -/
theorem C3_status_isolation_witness :
    apply_transition jobFrameW { new_state := "running", now := 5 } = .ok jobFrameW' ∧
    deepGetAux jobFrameW' ["metadata", "job_id"] = deepGetAux jobFrameW ["metadata", "job_id"] ∧
    deepGetAux jobFrameW' ["spec", "timestamps", "expires_at"] =
      deepGetAux jobFrameW ["spec", "timestamps", "expires_at"] := by
  have happ : apply_transition jobFrameW { new_state := "running", now := 5 } = .ok jobFrameW' := rfl
  refine ⟨happ, ?_, ?_⟩
  · exact C3_status_isolation jobFrameW _ jobFrameW' happ ["metadata", "job_id"] rfl rfl
  · exact C3_status_isolation jobFrameW _ jobFrameW' happ ["spec", "timestamps", "expires_at"] rfl rfl

/-! ## C8: org skill-policy projection -/

/-- The three-step decision rule for one skill id (or category): an org
deny entry wins over everything, an org allow entry wins next, and
otherwise the org's `default_rule` decides. -/
def skillAllowed (deny allow : List String) (org_default : String) (s : String) : Bool :=
  if deny.contains s then false
  else if allow.contains s then true
  else org_default == "allow"

theorem checkSkillIds_ok_iff (deny allow : List String) (d : String) (sids : List String) :
    checkSkillIds deny allow d sids = .ok () ↔
      ∀ s ∈ sids, skillAllowed deny allow d s = true := by
  induction sids with
  | nil => simp [checkSkillIds]
  | cons sid rest ih =>
    by_cases hd : sid ∈ deny
    · simp [checkSkillIds, skillAllowed, hd]
    · by_cases ha : sid ∈ allow
      · simp [checkSkillIds, skillAllowed, hd, ha, ih]
      · by_cases hdef : d = "allow"
        · subst hdef
          simp [checkSkillIds, skillAllowed, hd, ha, ih]
        · simp [checkSkillIds, skillAllowed, hd, ha, hdef, ih]

theorem checkSkillCats_ok_iff (deny allow : List String) (d : String) (cats : List String) :
    checkSkillCats deny allow d cats = .ok () ↔
      ∀ c ∈ cats, skillAllowed deny allow d c = true := by
  induction cats with
  | nil => simp [checkSkillCats]
  | cons cat rest ih =>
    by_cases hd : cat ∈ deny
    · simp [checkSkillCats, skillAllowed, hd]
    · by_cases ha : cat ∈ allow
      · simp [checkSkillCats, skillAllowed, hd, ha, ih]
      · by_cases hdef : d = "allow"
        · subst hdef
          simp [checkSkillCats, skillAllowed, hd, ha, ih]
        · simp [checkSkillCats, skillAllowed, hd, ha, hdef, ih]

/-- C8: given the inputs the skills section of
`_enforce_permissions_snapshot` extracts, the section passes exactly when
every job skill id and category is accepted by the three-step rule, in
which a deny-list hit rejects even when the org default is `allow` or the
entry also sits in the allow list, an allow-list hit (not denied) accepts,
and otherwise the org `default_rule` being `allow` decides acceptance. -/
theorem C8_org_skill_projection (job org : Json) (si : SkillInputs)
    (h : extractSkillInputs job org = .ok si) :
    (snapshotSkillChecks job org = .ok () ↔
      ((∀ s ∈ si.job_ids, skillAllowed si.deny_ids si.allow_ids si.org_default s = true) ∧
       (∀ c ∈ si.job_cats, skillAllowed si.deny_cats si.allow_cats si.org_default c = true))) ∧
    (∀ s, s ∈ si.deny_ids →
      skillAllowed si.deny_ids si.allow_ids si.org_default s = false) ∧
    (∀ s, s ∉ si.deny_ids → s ∈ si.allow_ids →
      skillAllowed si.deny_ids si.allow_ids si.org_default s = true) ∧
    (∀ s, s ∉ si.deny_ids → s ∉ si.allow_ids →
      (skillAllowed si.deny_ids si.allow_ids si.org_default s = true ↔ si.org_default = "allow")) := by
  refine ⟨?_, ?_, ?_, ?_⟩
  · unfold snapshotSkillChecks
    rw [h, exceptBind_ok]
    constructor
    · intro hok
      cases hids : checkSkillIds si.deny_ids si.allow_ids si.org_default si.job_ids with
      | error e => rw [hids, exceptBind_error] at hok; exact absurd hok (by simp)
      | ok u =>
        obtain ⟨⟩ := u
        rw [hids, exceptBind_ok] at hok
        exact ⟨(checkSkillIds_ok_iff _ _ _ _).mp hids, (checkSkillCats_ok_iff _ _ _ _).mp hok⟩
    · rintro ⟨hids, hcats⟩
      rw [(checkSkillIds_ok_iff _ _ _ _).mpr hids, exceptBind_ok]
      exact (checkSkillCats_ok_iff _ _ _ _).mpr hcats
  · intro s hs
    simp [skillAllowed, hs]
  · intro s hs ha
    simp [skillAllowed, hs, ha]
  · intro s hs ha
    simp [skillAllowed, hs, ha]

/-- A job snapshot naming one denied skill (also allowed, with org default
`allow`), plus an accepted category, for the C8 witness. -/
def jobSkillsW : Json := .obj [
  ("metadata", .obj [("job_id", .str "j-c8"), ("org_id", .str "org-c")]),
  ("spec", .obj [
    ("permissions_snapshot", .obj [
      ("skills", .obj [
        ("allowed_skill_ids", .arr [.str "skill.scan"]),
        ("allowed_skill_categories", .arr [.str "analysis"])])])])]

/-- Org manifest denying `skill.scan` even though it is in the allow list
and the default rule is `allow`. -/
def orgSkillsW : Json := .obj [
  ("spec", .obj [
    ("skill_policy", .obj [
      ("default_rule", .str "allow"),
      ("allow", .obj [
        ("skill_ids", .arr [.str "skill.scan"]),
        ("skill_categories", .arr [])]),
      ("deny", .obj [
        ("skill_ids", .arr [.str "skill.scan"]),
        ("skill_categories", .arr [])])])])]

/-- Witness for C8: on the concrete job and org the extraction succeeds,
the denied-although-allowed skill id makes the section fail, and the
three-step rule evaluates as the theorem states. -/
theorem C8_org_skill_projection_witness :
    extractSkillInputs jobSkillsW orgSkillsW =
      .ok ⟨["skill.scan"], ["skill.scan"], [], [], "allow", ["skill.scan"], ["analysis"]⟩ ∧
    snapshotSkillChecks jobSkillsW orgSkillsW ≠ .ok () ∧
    skillAllowed ["skill.scan"] ["skill.scan"] "allow" "skill.scan" = false := by
  have hex : extractSkillInputs jobSkillsW orgSkillsW =
      .ok ⟨["skill.scan"], ["skill.scan"], [], [], "allow", ["skill.scan"], ["analysis"]⟩ := rfl
  refine ⟨hex, ?_, ?_⟩
  · intro hok
    have h2 := ((C8_org_skill_projection jobSkillsW orgSkillsW _ hex).1.mp hok).1
      "skill.scan" (by simp)
    have h3 := (C8_org_skill_projection jobSkillsW orgSkillsW _ hex).2.1
      "skill.scan" (by simp)
    rw [h2] at h3
    exact Bool.noConfusion h3
  · exact (C8_org_skill_projection jobSkillsW orgSkillsW _ hex).2.1 "skill.scan" (by simp)

/-! ## C6: global hard limits on submission -/

theorem exceptThrow_def {α : Type} (e : Err) : (throw e : Except Err α) = .error e := rfl

theorem exceptPure_def {α : Type} (a : α) : (pure a : Except Err α) = .ok a := rfl

theorem exceptIte_bind {α β : Type} (c : Prop) [Decidable c] (a b : Except Err α)
    (k : α → Except Err β) :
    ((if c then a else b) >>= k) = if c then a >>= k else b >>= k := by
  split <;> rfl

/-- C6: with the job's timestamps and execution limits present in the
document, `enforce_job_contract_limits` returns normally exactly when none
of the seven bound violations holds, and raises a policy violation exactly
when one does. -/
theorem C6_contract_limits_characterization (job : Json) (L : LimitsConfig)
    (now c e mi mr mc : Int) (cur : String) (ex cc : List (String × Json))
    (h1 : deepGetAux job ["spec", "timestamps", "created_at"] = some (.num c))
    (h2 : deepGetAux job ["spec", "timestamps", "expires_at"] = some (.num e))
    (h3 : deepGetAux job ["spec", "execution_limits"] = some (.obj ex))
    (h4 : objGet ex "max_iterations" = some (.num mi))
    (h5 : objGet ex "max_runtime_seconds" = some (.num mr))
    (h6 : objGet ex "cost_cap" = some (.obj cc))
    (h7 : objGet cc "currency" = some (.str cur))
    (h8 : objGet cc "max_cost" = some (.num mc)) :
    (enforce_job_contract_limits job L now = .ok () ↔
      ¬(e ≤ c ∨ e ≤ now ∨ e - c > L.max_expires_in_seconds_upper_bound ∨
        mi > L.max_iterations_upper_bound ∨ mr > L.max_runtime_seconds_upper_bound ∨
        cur ≠ L.max_cost_upper_bound_currency ∨ mc > L.max_cost_upper_bound)) ∧
    ((∃ m, enforce_job_contract_limits job L now = .error (.policyViolation m)) ↔
      (e ≤ c ∨ e ≤ now ∨ e - c > L.max_expires_in_seconds_upper_bound ∨
        mi > L.max_iterations_upper_bound ∨ mr > L.max_runtime_seconds_upper_bound ∨
        cur ≠ L.max_cost_upper_bound_currency ∨ mc > L.max_cost_upper_bound)) := by
  have hnf : enforce_job_contract_limits job L now =
      (if e ≤ c then
        .error (.policyViolation "JobContract.spec.timestamps.expires_at must be after created_at")
      else if e ≤ now then
        .error (.policyViolation "JobContract is already expired (expires_at is in the past)")
      else if e - c > L.max_expires_in_seconds_upper_bound then
        .error (.policyViolation "JobContract expires_at exceeds global upper bound")
      else if mi > L.max_iterations_upper_bound then
        .error (.policyViolation "JobContract.max_iterations exceeds global upper bound")
      else if mr > L.max_runtime_seconds_upper_bound then
        .error (.policyViolation "JobContract.max_runtime_seconds exceeds global upper bound")
      else if cur ≠ L.max_cost_upper_bound_currency then
        .error (.policyViolation ("JobContract.cost_cap.currency must be " ++ L.max_cost_upper_bound_currency ++ " (got " ++ cur ++ ")"))
      else if mc > L.max_cost_upper_bound then
        .error (.policyViolation "JobContract.cost_cap.max_cost exceeds global upper bound")
      else .ok ()) := by
    unfold enforce_job_contract_limits
    simp only [deep_get, h1, h2, h3, parseTime, _as_dict, pyGet, h4, h5, h6, h7, h8,
      Option.getD, pyInt, pyFloat, pyStrOpt, pyStr, exceptBind_ok, exceptIte_bind,
      exceptBind_error, exceptThrow_def, exceptPure_def]
  by_cases cA : e ≤ c
  · simp [hnf, cA]
  by_cases cB : e ≤ now
  · simp [hnf, cA, cB]
  by_cases cC : e - c > L.max_expires_in_seconds_upper_bound
  · simp [hnf, cA, cB, cC]
  by_cases cD : mi > L.max_iterations_upper_bound
  · simp [hnf, cA, cB, cC, cD]
  by_cases cE : mr > L.max_runtime_seconds_upper_bound
  · simp [hnf, cA, cB, cC, cD, cE]
  by_cases cF : cur = L.max_cost_upper_bound_currency
  · by_cases cG : mc > L.max_cost_upper_bound
    · simp [hnf, cA, cB, cC, cD, cE, cF, cG]
    · simp [hnf, cA, cB, cC, cD, cE, cF, cG]
  · simp [hnf, cA, cB, cC, cD, cE, cF]

/-- A job satisfying all global limits below. -/
def jobLimitsW : Json := .obj [
  ("metadata", .obj [("job_id", .str "j-c6"), ("org_id", .str "org-d")]),
  ("spec", .obj [
    ("timestamps", .obj [("created_at", .num 0), ("expires_at", .num 100)]),
    ("execution_limits", .obj [
      ("max_iterations", .num 10),
      ("max_runtime_seconds", .num 60),
      ("cost_cap", .obj [("currency", .str "USD"), ("max_cost", .num 1)])])])]

/-- Global limits used by the C6 witness. -/
def limitsW : LimitsConfig := {
  max_iterations_upper_bound := 100
  max_runtime_seconds_upper_bound := 100
  max_cost_upper_bound_currency := "USD"
  max_cost_upper_bound := 100
  max_expires_in_seconds_upper_bound := 10000
  require_known_org := false }

/-- Witness for C6: the concrete job passes at `now = 50` and is rejected
at the boundary `expires_at = now = 100`. -/
theorem C6_contract_limits_witness :
    enforce_job_contract_limits jobLimitsW limitsW 50 = .ok () ∧
    enforce_job_contract_limits jobLimitsW limitsW 100 ≠ .ok () := by
  constructor
  · exact (C6_contract_limits_characterization jobLimitsW limitsW 50 0 100 10 60 1 "USD"
      [("max_iterations", .num 10), ("max_runtime_seconds", .num 60),
       ("cost_cap", .obj [("currency", .str "USD"), ("max_cost", .num 1)])]
      [("currency", .str "USD"), ("max_cost", .num 1)]
      rfl rfl rfl rfl rfl rfl rfl rfl).1.mpr (by decide)
  · obtain ⟨m, hm⟩ := (C6_contract_limits_characterization jobLimitsW limitsW 100 0 100 10 60 1 "USD"
      [("max_iterations", .num 10), ("max_runtime_seconds", .num 60),
       ("cost_cap", .obj [("currency", .str "USD"), ("max_cost", .num 1)])]
      [("currency", .str "USD"), ("max_cost", .num 1)]
      rfl rfl rfl rfl rfl rfl rfl rfl).2.mpr (by decide)
    rw [hm]
    intro hcontra
    exact Except.noConfusion hcontra

/-! ## C9: schema validation determinism and ordering -/

/-- C9: over a fixed raw-error enumerator, validation is deterministic
(repeated calls give the identical result), succeeds exactly when the
enumerator reports no failures, and any raised violations list is a
permutation of the complete mapped failure set, sorted ascending by
`(path, message)`. -/
theorem C9_schema_validation_deterministic (iterErrors : Json → List RawError)
    (kind : String) (doc : Json) :
    SchemaValidator.validate iterErrors kind doc = SchemaValidator.validate iterErrors kind doc ∧
    (SchemaValidator.validate iterErrors kind doc = .ok () ↔ iterErrors doc = []) ∧
    (∀ vs, SchemaValidator.validate iterErrors kind doc = .error (.schemaValidation kind vs) →
      vs.Perm ((iterErrors doc).map (fun e =>
        SchemaViolation.mk (jsonPointer e.absolute_path) e.message)) ∧
      vs.Sorted violLe) := by
  refine ⟨rfl, ?_, ?_⟩
  · unfold SchemaValidator.validate
    cases h : iterErrors doc with
    | nil => simp
    | cons a rest => simp
  · intro vs hv
    unfold SchemaValidator.validate at hv
    split at hv
    · exact absurd hv (by simp)
    · simp only [Except.error.injEq, Err.schemaValidation.injEq, true_and] at hv
      rw [← hv]
      unfold sortViolations
      exact ⟨List.perm_insertionSort violLe _, List.sorted_insertionSort violLe _⟩

/-- A raw-error enumerator reporting three failures out of order. -/
def iterErrorsW : Json → List RawError := fun _ => [
  ⟨[.key "spec"], "b-message"⟩,
  ⟨[.key "metadata"], "a-message"⟩,
  ⟨[.key "spec"], "a-message"⟩]

/-- Witness for C9: on the concrete enumerator the raised list is the
complete failure set sorted by `(path, message)`. -/
theorem C9_schema_validation_witness :
    SchemaValidator.validate iterErrorsW "JobContract" Json.null =
      .error (.schemaValidation "JobContract"
        [⟨"/metadata", "a-message"⟩, ⟨"/spec", "a-message"⟩, ⟨"/spec", "b-message"⟩]) ∧
    ([⟨"/metadata", "a-message"⟩, ⟨"/spec", "a-message"⟩, ⟨"/spec", "b-message"⟩] :
      List SchemaViolation).Sorted violLe := by
  have hv : SchemaValidator.validate iterErrorsW "JobContract" Json.null =
      .error (.schemaValidation "JobContract"
        [⟨"/metadata", "a-message"⟩, ⟨"/spec", "a-message"⟩, ⟨"/spec", "b-message"⟩]) := by
    decide
  exact ⟨hv, ((C9_schema_validation_deterministic iterErrorsW "JobContract" Json.null).2.2 _ hv).2⟩

/-! ## Symbolic-execution lemmas for the store monad -/

theorem dbmBind_def {α β : Type} (m : DbM α) (f : α → DbM β) (s : Store) :
    (m >>= f) s = match m s with
      | .ok a s' => f a s'
      | .error e s' => .error e s' := rfl

theorem dbmPure_def {α : Type} (a : α) (s : Store) : (pure a : DbM α) s = .ok a s := rfl

theorem throwDb_def {α : Type} (e : Err) (s : Store) : (throwDb e : DbM α) s = .error e s := rfl

theorem dbmBind_ok {α β : Type} {m : DbM α} {f : α → DbM β} {s s2 : Store} {b : β} :
    (m >>= f) s = .ok b s2 ↔ ∃ a s1, m s = .ok a s1 ∧ f a s1 = .ok b s2 := by
  rw [dbmBind_def]
  cases hms : m s with
  | ok a s1 =>
    constructor
    · intro h
      exact ⟨a, s1, rfl, h⟩
    · rintro ⟨a', s1', h1, h2⟩
      cases h1
      exact h2
  | error e s1 =>
    constructor
    · intro h
      exact absurd h (fun he => DbResult.noConfusion he)
    · rintro ⟨a', s1', h1, h2⟩
      cases h1

theorem bind_ok_eval {α β : Type} {m : DbM α} {a : α} {s s1 : Store} (h : m s = .ok a s1)
    (f : α → DbM β) : (m >>= f) s = f a s1 := by
  rw [dbmBind_def, h]

theorem liftE_ok {α : Type} {x : Except Err α} {s s1 : Store} {a : α} :
    liftE x s = .ok a s1 ↔ x = .ok a ∧ s1 = s := by
  cases x with
  | ok v =>
    simp only [liftE, dbmPure_def]
    constructor
    · intro h
      cases h
      exact ⟨rfl, rfl⟩
    · rintro ⟨h1, h2⟩
      cases h1
      rw [h2]
  | error e =>
    simp only [liftE, throwDb_def]
    constructor
    · intro h
      exact absurd h (fun he => DbResult.noConfusion he)
    · rintro ⟨h1, h2⟩
      cases h1

/-- The store an operation leaves behind, on either outcome. -/
def resultStore {α : Type} : DbResult α → Store
  | .ok _ s => s
  | .error _ s => s

/-- Operations that never write to the store. -/
def preservesStore {α : Type} (m : DbM α) : Prop := ∀ s, resultStore (m s) = s

theorem preserves_ok {α : Type} {m : DbM α} (h : preservesStore m) {s s1 : Store} {a : α}
    (hm : m s = .ok a s1) : s1 = s := by
  have h2 := h s
  rw [hm] at h2
  exact h2

theorem preserves_pure {α : Type} (a : α) : preservesStore (pure a : DbM α) := by
  intro s
  rfl

theorem preserves_throwDb {α : Type} (e : Err) : preservesStore (throwDb e : DbM α) := by
  intro s
  rfl

theorem preserves_liftE {α : Type} (x : Except Err α) : preservesStore (liftE x) := by
  intro s
  cases x <;> rfl

theorem preserves_getStore : preservesStore getStore := by
  intro s
  rfl

theorem preserves_bind {α β : Type} {m : DbM α} {f : α → DbM β}
    (hm : preservesStore m) (hf : ∀ a, preservesStore (f a)) : preservesStore (m >>= f) := by
  intro s
  rw [dbmBind_def]
  cases hms : m s with
  | ok a s1 =>
    have h2 : s1 = s := preserves_ok hm hms
    rw [h2]
    exact hf a s
  | error e s1 =>
    have h3 := hm s
    rw [hms] at h3
    exact h3

theorem preserves_ite {c : Prop} [Decidable c] {α : Type} {m1 m2 : DbM α}
    (h1 : preservesStore m1) (h2 : preservesStore m2) :
    preservesStore (if c then m1 else m2) := by
  by_cases hc : c
  · rw [if_pos hc]; exact h1
  · rw [if_neg hc]; exact h2

theorem preserves_jobsGet (jid : String) : preservesStore (jobsGet jid) := by
  intro s
  unfold jobsGet
  cases objGet s.jobs jid <;> rfl

theorem recordEvent_eval (ts : Int) (o j t : String) (d : List (String × Json)) (s : Store) :
    recordEvent ts o j t d s = .ok () { s with events := s.events ++ [⟨ts, o, j, t, d⟩] } := rfl

theorem jobsCreate_ok {job : Json} {s s1 : Store} {u : Unit}
    (h : jobsCreate job s = .ok u s1) :
    ∃ cols, extractJobCols job = .ok cols ∧ objGet s.jobs cols.1 = none ∧
      s1 = { s with jobs := s.jobs ++ [(cols.1, job)] } := by
  unfold jobsCreate at h
  split at h
  · exact absurd h (fun he => DbResult.noConfusion he)
  · rename_i cols hx
    split at h
    · exact absurd h (fun he => DbResult.noConfusion he)
    · rename_i hob
      cases h
      exact ⟨cols, hx, hob, rfl⟩

theorem jobsUpdate_ok {job : Json} {s s1 : Store} {u : Unit}
    (h : jobsUpdate job s = .ok u s1) :
    ∃ cols j0, extractJobCols job = .ok cols ∧ objGet s.jobs cols.1 = some j0 ∧
      s1 = { s with jobs := objSet s.jobs cols.1 job } := by
  unfold jobsUpdate at h
  split at h
  · exact absurd h (fun he => DbResult.noConfusion he)
  · rename_i cols hx
    split at h
    · rename_i j0 hob
      cases h
      exact ⟨cols, j0, hx, hob, rfl⟩
    · exact absurd h (fun he => DbResult.noConfusion he)

theorem artifactsAppend_ok {a : Json} {s s1 : Store} {u : Unit}
    (h : artifactsAppend a s = .ok u s1) :
    ∃ aid, extractArtifactCols a = .ok aid ∧ objGet s.artifacts aid = none ∧
      s1 = { s with artifacts := s.artifacts ++ [(aid, a)] } := by
  unfold artifactsAppend at h
  split at h
  · exact absurd h (fun he => DbResult.noConfusion he)
  · rename_i aid hx
    split at h
    · exact absurd h (fun he => DbResult.noConfusion he)
    · rename_i hob
      cases h
      exact ⟨aid, hx, hob, rfl⟩

theorem preserves_enforce_artifact_policy (C : Components) (a : Json) :
    preservesStore (_enforce_artifact_policy C a) := by
  unfold _enforce_artifact_policy
  repeat'
    first
    | apply preserves_bind
    | apply preserves_ite
    | exact preserves_liftE _
    | exact preserves_pure _
    | exact preserves_throwDb _
    | exact preserves_jobsGet _
    | intro x

/-! ## C2: audit events of admitted submissions -/

/-- C2 (amended): an admitted job submission records exactly one
`job_submitted` event, but an artifact admitted through `submit_artifact`
records no event in the job event log at all. -/
theorem C2_submission_audit_events (C : Components) (st : Store) (artifact job : Json) :
    (∀ out st2, submit_artifact C artifact st = .ok out st2 → st2.events = st.events) ∧
    (∀ out st2 now org_id job_id,
      strGet job ["metadata", "org_id"] = .ok org_id →
      strGet job ["metadata", "job_id"] = .ok job_id →
      submit_job C job now st = .ok out st2 →
      st2.events = st.events ++
        [⟨now, org_id, job_id, "job_submitted", [("state", .str "created")]⟩]) := by
  constructor
  · intro out st2 h
    unfold submit_artifact at h
    rcases dbmBind_ok.mp h with ⟨u1, s1, h1, h⟩
    have e1 : st = s1 := (preserves_ok (preserves_liftE _) h1).symm
    subst e1
    rcases dbmBind_ok.mp h with ⟨u2, s2, h2, h⟩
    have e2 : st = s2 := (preserves_ok (preserves_enforce_artifact_policy C artifact) h2).symm
    subst e2
    rcases dbmBind_ok.mp h with ⟨u3, s3, h3, h⟩
    obtain ⟨aid, hx, hob, rfl⟩ := artifactsAppend_ok h3
    rw [dbmPure_def] at h
    cases h
    rfl
  · intro out st2 now org_id job_id horg hjid h
    unfold submit_job at h
    rcases dbmBind_ok.mp h with ⟨u1, s1, h1, h⟩
    have e1 : st = s1 := (preserves_ok (preserves_liftE _) h1).symm
    subst e1
    rcases dbmBind_ok.mp h with ⟨u2, s2, h2, h⟩
    have e2 : st = s2 := (preserves_ok (preserves_liftE _) h2).symm
    subst e2
    rcases dbmBind_ok.mp h with ⟨u3, s3, h3, h⟩
    have e3 : st = s3 := (preserves_ok (preserves_liftE _) h3).symm
    subst e3
    rcases dbmBind_ok.mp h with ⟨org_id', s4, h4, h⟩
    obtain ⟨horg', e4⟩ := liftE_ok.mp h4
    have e4' : st = s4 := e4.symm
    subst e4'
    have : org_id' = org_id := by
      rw [horg] at horg'
      exact (Except.ok.inj horg').symm
    subst this
    rcases dbmBind_ok.mp h with ⟨u5, s5, h5, h⟩
    have e5 : st = s5 :=
      (preserves_ok (preserves_ite (preserves_throwDb _) (preserves_pure _)) h5).symm
    subst e5
    rcases dbmBind_ok.mp h with ⟨u6, s6, h6, h⟩
    have e6 : st = s6 :=
      (preserves_ok (preserves_ite
        (preserves_bind (preserves_liftE _) (fun _ => preserves_liftE _))
        (preserves_pure _)) h6).symm
    subst e6
    rcases dbmBind_ok.mp h with ⟨u7, s7, h7, h⟩
    obtain ⟨cols, hcols, hnone, rfl⟩ := jobsCreate_ok h7
    rcases dbmBind_ok.mp h with ⟨job_id', s8, h8, h⟩
    obtain ⟨hjid', e8⟩ := liftE_ok.mp h8
    have e8' : _ = s8 := e8.symm
    subst e8'
    have : job_id' = job_id := by
      rw [hjid] at hjid'
      exact (Except.ok.inj hjid').symm
    subst this
    rcases dbmBind_ok.mp h with ⟨u9, s9, h9, h⟩
    rw [recordEvent_eval] at h9
    cases h9
    rw [dbmPure_def] at h
    cases h
    rfl

/-- Org manifest for the C2 counterexample, allowing artifact type
`report`. -/
def orgArtifactCE : Json := .obj [
  ("spec", .obj [
    ("artifact_policy", .obj [
      ("allowed_types", .arr [.obj [("type_id", .str "report")]]),
      ("denied_types", .arr [])])])]

/-- Components for the C2 counterexample (schema validation passing, org
known, execution deferred). -/
def compArtifactCE : Components := {
  validate := fun _ _ => .ok ()
  registry := { orgs := [("org-e", orgArtifactCE)], agents := [], includedAgents := [("org-e", ["agentA"])] }
  limits := {
    max_iterations_upper_bound := 100
    max_runtime_seconds_upper_bound := 100
    max_cost_upper_bound_currency := "USD"
    max_cost_upper_bound := 100
    max_expires_in_seconds_upper_bound := 10000
    require_known_org := false }
  execution_deferred := true }

/-- The stored (non-terminal) job the artifact references. -/
def jobArtifactCE : Json := .obj [
  ("metadata", .obj [("job_id", .str "j-c2"), ("org_id", .str "org-e")]),
  ("spec", .obj [
    ("timestamps", .obj [("created_at", .num 0), ("expires_at", .num 100)]),
    ("status", .obj [("state", .str "created"), ("status_updated_at", .str "0")])])]

/-- Store holding that job, with an empty event log. -/
def storeArtifactCE : Store :=
  { jobs := [("j-c2", jobArtifactCE)], artifacts := [], evaluations := [], events := [] }

/-- The artifact being admitted. -/
def artifactCE : Json := .obj [
  ("metadata", .obj [
    ("artifact_id", .str "a-c2"), ("org_id", .str "org-e"), ("artifact_type", .str "report")]),
  ("spec", .obj [
    ("job_ref", .obj [("job_id", .str "j-c2")]),
    ("created_at", .str "t0"),
    ("produced_by", .obj [("agent_id", .str "agentA")])])]

/-- C2 counterexample: this artifact is admitted (stored) by
`submit_artifact`, yet the job event log stays empty — zero events, not
exactly one. -/
theorem C2_artifact_admitted_without_event :
    submit_artifact compArtifactCE artifactCE storeArtifactCE =
      .ok artifactCE { storeArtifactCE with artifacts := [("a-c2", artifactCE)] } ∧
    storeArtifactCE.events = [] ∧
    ({ storeArtifactCE with artifacts := [("a-c2", artifactCE)] } : Store).events = [] := by
  refine ⟨by decide, rfl, rfl⟩

/-! ## Further document and transition lemmas -/

theorem deepGetAux_append (p q : List String) (j : Json) :
    deepGetAux j (p ++ q) = (deepGetAux j p).bind (fun x => deepGetAux x q) := by
  induction p generalizing j with
  | nil => simp [deepGetAux]
  | cons k ps ih =>
    cases j with
    | obj fields =>
      simp only [List.cons_append, deepGetAux]
      cases objGet fields k with
      | some v => exact ih v
      | none => rfl
    | null => rfl
    | bool b => rfl
    | num n => rfl
    | str s => rfl
    | arr xs => rfl

theorem deepGetAux_setDeep_self (base : List String) (j : Json) (v0 v : Json)
    (h : deepGetAux j base = some v0) :
    deepGetAux (setDeep j base v) base = some v := by
  induction base generalizing j v0 with
  | nil => simp [setDeep, deepGetAux]
  | cons k bs ih =>
    cases j with
    | obj fields =>
      simp only [deepGetAux] at h
      cases hg : objGet fields k with
      | none => rw [hg] at h; exact absurd h (by simp)
      | some child =>
        rw [hg] at h
        simp only [setDeep, hg, deepGetAux, objGet_objSet_self]
        exact ih child v0 h
    | null => exact absurd h (by simp [deepGetAux])
    | bool b => exact absurd h (by simp [deepGetAux])
    | num n => exact absurd h (by simp [deepGetAux])
    | str s => exact absurd h (by simp [deepGetAux])
    | arr xs => exact absurd h (by simp [deepGetAux])

theorem objGet_objSetdefault_ne (f : List (String × Json)) (k k' : String) (v : Json)
    (h : k' ≠ k) :
    objGet (objSetdefault f k v) k' = objGet f k' := by
  unfold objSetdefault
  cases objGet f k with
  | some w => rfl
  | none =>
    induction f with
    | nil => simp [objGet, Ne.symm h]
    | cons hd tl ih =>
      obtain ⟨k2, v2⟩ := hd
      by_cases h2 : k2 = k'
      · simp [objGet, h2]
      · simp [objGet, h2, ih]

theorem objGet_objSetdefault_self (f : List (String × Json)) (k : String) (v : Json) :
    objGet (objSetdefault f k v) k = some ((objGet f k).getD v) := by
  unfold objSetdefault
  cases hg : objGet f k with
  | some w => simp [hg]
  | none =>
    simp only [Option.getD]
    induction f with
    | nil => simp [objGet]
    | cons hd tl ih =>
      obtain ⟨k2, v2⟩ := hd
      by_cases h2 : k2 = k
      · rw [objGet, if_pos h2] at hg
        exact absurd hg (by simp)
      · rw [objGet, if_neg h2] at hg
        simpa [objGet, h2] using ih hg

theorem objSet_same (f : List (String × Json)) (k : String) (v : Json)
    (h : objGet f k = some v) : objSet f k v = f := by
  induction f with
  | nil => simp [objGet] at h
  | cons hd tl ih =>
    obtain ⟨k2, v2⟩ := hd
    by_cases h2 : k2 = k
    · rw [objGet, if_pos h2] at h
      rw [objSet, if_pos h2]
      cases h
      rfl
    · rw [objGet, if_neg h2] at h
      rw [objSet, if_neg h2, ih h]

/-- `buildStatusFields` at the literal `running` request. -/
theorem buildStatusFields_running_eval (fields : List (String × Json)) (now : Int) :
    buildStatusFields fields { new_state := "running", now := now } =
      .ok (objSetdefault (objSet (objSet fields "state" (.str "running"))
        "status_updated_at" (.str (format_rfc3339 now))) "started_at" (.str (format_rfc3339 now))) := rfl

/-- `buildStatusFields` at the literal `waiting` request. -/
theorem buildStatusFields_waiting_eval (fields : List (String × Json)) (now : Int) :
    buildStatusFields fields { new_state := "waiting", now := now } =
      .ok (objSet (objSet fields "state" (.str "waiting"))
        "status_updated_at" (.str (format_rfc3339 now))) := rfl

/-- `buildStatusFields` at the system-expiry request. -/
theorem buildStatusFields_expired_eval (fields : List (String × Json)) (now : Int) :
    buildStatusFields fields
      { new_state := "expired", now := now, expiry_reason := some "expires_at_reached" } =
      .ok (objSet (objSet (objSet (objSet fields "state" (.str "expired"))
        "status_updated_at" (.str (format_rfc3339 now)))
        "expiry_reason" (.str "expires_at_reached"))
        "terminal_at" (.str (format_rfc3339 now))) := rfl

/-- Forward evaluation of `apply_transition` on a non-terminal,
state-changing request whose checks pass. -/
theorem apply_transition_eval (job : Json) (req : TransitionRequest) (s : String)
    (fields fields2 : List (String × Json))
    (hst : deepGetAux job ["spec", "status"] = some (.obj fields))
    (hs : objGet fields "state" = some (.str s))
    (hne : req.new_state ≠ s) (hterm : is_terminal s = false)
    (hallow : transitionAllowedCheck s req.new_state = .ok ())
    (hbuild : buildStatusFields fields req = .ok fields2) :
    apply_transition job req = .ok (setDeep job ["spec", "status"] (.obj fields2)) := by
  have hgs : deepGetAux job ["spec", "status", "state"] = some (.str s) := by
    have h2 := deepGetAux_append ["spec", "status"] ["state"] job
    rw [show (["spec", "status"] ++ ["state"] : List String) = ["spec", "status", "state"] from rfl] at h2
    rw [h2, hst]
    simp [deepGetAux, hs]
  unfold apply_transition
  rw [show deep_get job ["spec", "status", "state"] = .ok (.str s) from by simp [deep_get, hgs]]
  rw [exceptBind_ok]
  simp only [pyStr]
  rw [if_neg hne, if_neg (by simp [hterm] : ¬(is_terminal s = true))]
  rw [hallow, exceptBind_ok]
  rw [show deep_get job ["spec", "status"] = .ok (.obj fields) from by simp [deep_get, hst]]
  rw [exceptBind_ok]
  simp only []
  rw [hbuild, exceptBind_ok]
  rfl

/-- `apply_transition` on a request naming the current state is a no-op. -/
theorem apply_transition_same_state (job : Json) (req : TransitionRequest) (s : String)
    (hs : deepGetAux job ["spec", "status", "state"] = some (.str s))
    (he : req.new_state = s) :
    apply_transition job req = .ok job := by
  unfold apply_transition
  rw [show deep_get job ["spec", "status", "state"] = .ok (.str s) from by simp [deep_get, hs]]
  rw [exceptBind_ok]
  simp only [pyStr]
  rw [if_pos he]
  rfl

theorem deepGetAux_status_field (job : Json) (fields : List (String × Json)) (k : String) (v : Json)
    (hst : deepGetAux job ["spec", "status"] = some (.obj fields))
    (hf : objGet fields k = some v) :
    deepGetAux job ["spec", "status", k] = some v := by
  have h2 := deepGetAux_append ["spec", "status"] [k] job
  rw [show (["spec", "status"] ++ [k] : List String) = ["spec", "status", k] from rfl] at h2
  rw [h2, hst]
  simp [deepGetAux, hf]

theorem liftE_eval {α : Type} {x : Except Err α} {a : α} (hx : x = .ok a) (s : Store) :
    liftE x s = .ok a s := by
  rw [hx]
  rfl

/-! ## C10: run_job on an already-expired stored job -/

/-- C10: a stored job already in state `expired` with `expires_at ≤ now`
makes `run_job` succeed, not conflict: the expiry branch applies an
`expired → expired` transition, which the state machine short-circuits as
a same-state no-op, the unchanged document is re-stored, and one more
`job_expired` event is appended. -/
theorem C10_run_job_expired_noop (C : Components) (st : Store) (job : Json)
    (job_id org_id : String) (fields : List (String × Json)) (e now now2 : Int)
    (vc vu : Json)
    (hjob : objGet st.jobs job_id = some job)
    (hjid : deepGetAux job ["metadata", "job_id"] = some (.str job_id))
    (horg : deepGetAux job ["metadata", "org_id"] = some (.str org_id))
    (hexp : deepGetAux job ["spec", "timestamps", "expires_at"] = some (.num e))
    (hcre : deepGetAux job ["spec", "timestamps", "created_at"] = some vc)
    (hst : deepGetAux job ["spec", "status"] = some (.obj fields))
    (hsf : objGet fields "state" = some (.str "expired"))
    (hsu : objGet fields "status_updated_at" = some vu)
    (hle : e ≤ now)
    (hv : ∀ k d, C.validate k d = .ok ()) :
    run_job C job_id now now2 st =
      .ok job { st with events := st.events ++
        [⟨now, org_id, job_id, "job_expired", [("reason", .str "expires_at_reached")]⟩] } := by
  have hss : deepGetAux job ["spec", "status", "state"] = some (.str "expired") :=
    deepGetAux_status_field job fields "state" _ hst hsf
  have hsue : deepGetAux job ["spec", "status", "status_updated_at"] = some vu :=
    deepGetAux_status_field job fields "status_updated_at" _ hst hsu
  have hget : jobsGet job_id st = .ok job st := by
    unfold jobsGet
    rw [hjob]
  have horgE : strGet job ["metadata", "org_id"] = .ok org_id := by
    simp [strGet, deep_get, horg, pyStr, Except.map]
  have hexpE : deep_get job ["spec", "timestamps", "expires_at"] = .ok (.num e) := by
    simp [deep_get, hexp]
  have happ : apply_transition job
      { new_state := "expired", now := now, expiry_reason := some "expires_at_reached" } =
      .ok job :=
    apply_transition_same_state job _ "expired" hss rfl
  have hcols : extractJobCols job = .ok (job_id, org_id, "expired") := by
    simp [extractJobCols, strGet, deep_get, hjid, horg, hss, hcre, hexp, hsue, pyStr,
      exceptBind_ok, exceptPure_def, Except.map]
  have hupd : jobsUpdate job st = .ok () { st with jobs := objSet st.jobs job_id job } := by
    simp only [jobsUpdate, hcols, hjob]
  have hsame : objSet st.jobs job_id job = st.jobs := objSet_same st.jobs job_id job hjob
  rw [hsame] at hupd
  simp only [run_job, dbmBind_def, hget, horgE, hexpE, parseTime, liftE, dbmPure_def, hle,
    if_true, happ, hv, hupd, recordEvent]

/-- An already-expired stored job for the C10 witness. -/
def jobExpiredW : Json := .obj [
  ("metadata", .obj [("job_id", .str "j-c10"), ("org_id", .str "org-f")]),
  ("spec", .obj [
    ("timestamps", .obj [("created_at", .num 0), ("expires_at", .num 10)]),
    ("status", .obj [
      ("state", .str "expired"),
      ("status_updated_at", .str "10"),
      ("expiry_reason", .str "expires_at_reached"),
      ("terminal_at", .str "10")])])]

/-- Components for the C10 witness. -/
def compExpiredW : Components := {
  validate := fun _ _ => .ok ()
  registry := { orgs := [], agents := [], includedAgents := [] }
  limits := {
    max_iterations_upper_bound := 100
    max_runtime_seconds_upper_bound := 100
    max_cost_upper_bound_currency := "USD"
    max_cost_upper_bound := 100
    max_expires_in_seconds_upper_bound := 10000
    require_known_org := false }
  execution_deferred := true }

/-- Store for the C10 witness. -/
def storeExpiredW : Store :=
  { jobs := [("j-c10", jobExpiredW)], artifacts := [], evaluations := [], events := [] }

/-- Witness for C10 at a concrete already-expired job. -/
theorem C10_run_job_expired_noop_witness :
    run_job compExpiredW "j-c10" 20 21 storeExpiredW =
      .ok jobExpiredW { storeExpiredW with events := storeExpiredW.events ++
        [⟨20, "org-f", "j-c10", "job_expired", [("reason", .str "expires_at_reached")]⟩] } :=
  C10_run_job_expired_noop compExpiredW storeExpiredW jobExpiredW "j-c10" "org-f"
    [("state", .str "expired"), ("status_updated_at", .str "10"),
     ("expiry_reason", .str "expires_at_reached"), ("terminal_at", .str "10")]
    10 20 21 (.num 0) (.str "10")
    rfl rfl rfl rfl rfl rfl rfl rfl (by decide) (fun _ _ => rfl)

/-! ## Status-field compositions produced by the literal transitions -/

/-- The status fields after `created|waiting → running` at `now`. -/
def runningStatusFields (fields : List (String × Json)) (now : Int) : List (String × Json) :=
  objSetdefault (objSet (objSet fields "state" (.str "running"))
    "status_updated_at" (.str (format_rfc3339 now))) "started_at" (.str (format_rfc3339 now))

/-- The status fields after the deferred `running → waiting` at `now2`. -/
def waitingStatusFields (fields : List (String × Json)) (now now2 : Int) : List (String × Json) :=
  objSet (objSet (runningStatusFields fields now) "state" (.str "waiting"))
    "status_updated_at" (.str (format_rfc3339 now2))

/-- The status fields after the system expiry transition at `now`. -/
def expiredStatusFields (fields : List (String × Json)) (now : Int) : List (String × Json) :=
  objSet (objSet (objSet (objSet fields "state" (.str "expired"))
    "status_updated_at" (.str (format_rfc3339 now)))
    "expiry_reason" (.str "expires_at_reached"))
    "terminal_at" (.str (format_rfc3339 now))

theorem buildStatusFields_running_eval2 (fields : List (String × Json)) (now : Int) :
    buildStatusFields fields { new_state := "running", now := now } =
      .ok (runningStatusFields fields now) := rfl

theorem buildStatusFields_waiting_eval2 (fields : List (String × Json)) (now now2 : Int) :
    buildStatusFields (runningStatusFields fields now) { new_state := "waiting", now := now2 } =
      .ok (waitingStatusFields fields now now2) := rfl

theorem buildStatusFields_expired_eval2 (fields : List (String × Json)) (now : Int) :
    buildStatusFields fields
      { new_state := "expired", now := now, expiry_reason := some "expires_at_reached" } =
      .ok (expiredStatusFields fields now) := rfl

theorem runningStatusFields_state (fields : List (String × Json)) (now : Int) :
    objGet (runningStatusFields fields now) "state" = some (.str "running") := by
  unfold runningStatusFields
  rw [objGet_objSetdefault_ne _ _ _ _ (by decide : ("state" : String) ≠ "started_at")]
  rw [objGet_objSet_ne _ _ _ _ (by decide : ("state" : String) ≠ "status_updated_at")]
  rw [objGet_objSet_self]

theorem runningStatusFields_started_at (fields : List (String × Json)) (now : Int) :
    ∃ w, objGet (runningStatusFields fields now) "started_at" = some w := by
  unfold runningStatusFields
  rw [objGet_objSetdefault_self]
  exact ⟨_, rfl⟩

theorem runningStatusFields_sua (fields : List (String × Json)) (now : Int) :
    objGet (runningStatusFields fields now) "status_updated_at" =
      some (.str (format_rfc3339 now)) := by
  unfold runningStatusFields
  rw [objGet_objSetdefault_ne _ _ _ _ (by decide : ("status_updated_at" : String) ≠ "started_at")]
  rw [objGet_objSet_self]

theorem waitingStatusFields_state (fields : List (String × Json)) (now now2 : Int) :
    objGet (waitingStatusFields fields now now2) "state" = some (.str "waiting") := by
  unfold waitingStatusFields
  rw [objGet_objSet_ne _ _ _ _ (by decide : ("state" : String) ≠ "status_updated_at")]
  rw [objGet_objSet_self]

theorem waitingStatusFields_sua (fields : List (String × Json)) (now now2 : Int) :
    objGet (waitingStatusFields fields now now2) "status_updated_at" =
      some (.str (format_rfc3339 now2)) := by
  unfold waitingStatusFields
  rw [objGet_objSet_self]

theorem waitingStatusFields_started_at (fields : List (String × Json)) (now now2 : Int) :
    ∃ w, objGet (waitingStatusFields fields now now2) "started_at" = some w := by
  unfold waitingStatusFields
  rw [objGet_objSet_ne _ _ _ _ (by decide : ("started_at" : String) ≠ "status_updated_at")]
  rw [objGet_objSet_ne _ _ _ _ (by decide : ("started_at" : String) ≠ "state")]
  exact runningStatusFields_started_at fields now

theorem expiredStatusFields_state (fields : List (String × Json)) (now : Int) :
    objGet (expiredStatusFields fields now) "state" = some (.str "expired") := by
  unfold expiredStatusFields
  rw [objGet_objSet_ne _ _ _ _ (by decide : ("state" : String) ≠ "terminal_at")]
  rw [objGet_objSet_ne _ _ _ _ (by decide : ("state" : String) ≠ "expiry_reason")]
  rw [objGet_objSet_ne _ _ _ _ (by decide : ("state" : String) ≠ "status_updated_at")]
  rw [objGet_objSet_self]

theorem expiredStatusFields_reason (fields : List (String × Json)) (now : Int) :
    objGet (expiredStatusFields fields now) "expiry_reason" =
      some (.str "expires_at_reached") := by
  unfold expiredStatusFields
  rw [objGet_objSet_ne _ _ _ _ (by decide : ("expiry_reason" : String) ≠ "terminal_at")]
  rw [objGet_objSet_self]

theorem expiredStatusFields_sua (fields : List (String × Json)) (now : Int) :
    objGet (expiredStatusFields fields now) "status_updated_at" =
      some (.str (format_rfc3339 now)) := by
  unfold expiredStatusFields
  rw [objGet_objSet_ne _ _ _ _ (by decide : ("status_updated_at" : String) ≠ "terminal_at")]
  rw [objGet_objSet_ne _ _ _ _ (by decide : ("status_updated_at" : String) ≠ "expiry_reason")]
  rw [objGet_objSet_self]

/-- Extracted SQL columns of a document whose `spec.status` was replaced,
in terms of the original document's other fields. -/
theorem extractJobCols_setDeep (job : Json) (fields f2 : List (String × Json))
    (job_id org_id sv : String) (vc ve vu : Json)
    (hjid : deepGetAux job ["metadata", "job_id"] = some (.str job_id))
    (horg : deepGetAux job ["metadata", "org_id"] = some (.str org_id))
    (hcre : deepGetAux job ["spec", "timestamps", "created_at"] = some vc)
    (hexp : deepGetAux job ["spec", "timestamps", "expires_at"] = some ve)
    (hst : deepGetAux job ["spec", "status"] = some (.obj fields))
    (hs2 : objGet f2 "state" = some (.str sv))
    (hsu2 : objGet f2 "status_updated_at" = some vu) :
    extractJobCols (setDeep job ["spec", "status"] (.obj f2)) = .ok (job_id, org_id, sv) := by
  have h1 : deepGetAux (setDeep job ["spec", "status"] (.obj f2)) ["metadata", "job_id"] =
      some (.str job_id) :=
    (deepGetAux_setDeep_outside _ _ _ _ (by decide) (by decide)).trans hjid
  have h2 : deepGetAux (setDeep job ["spec", "status"] (.obj f2)) ["metadata", "org_id"] =
      some (.str org_id) :=
    (deepGetAux_setDeep_outside _ _ _ _ (by decide) (by decide)).trans horg
  have h3 : deepGetAux (setDeep job ["spec", "status"] (.obj f2))
      ["spec", "timestamps", "created_at"] = some vc :=
    (deepGetAux_setDeep_outside _ _ _ _ (by decide) (by decide)).trans hcre
  have h4 : deepGetAux (setDeep job ["spec", "status"] (.obj f2))
      ["spec", "timestamps", "expires_at"] = some ve :=
    (deepGetAux_setDeep_outside _ _ _ _ (by decide) (by decide)).trans hexp
  have h5 : deepGetAux (setDeep job ["spec", "status"] (.obj f2)) ["spec", "status"] =
      some (.obj f2) :=
    deepGetAux_setDeep_self _ _ _ _ hst
  have h6 : deepGetAux (setDeep job ["spec", "status"] (.obj f2)) ["spec", "status", "state"] =
      some (.str sv) :=
    deepGetAux_status_field _ f2 "state" _ h5 hs2
  have h7 : deepGetAux (setDeep job ["spec", "status"] (.obj f2))
      ["spec", "status", "status_updated_at"] = some vu :=
    deepGetAux_status_field _ f2 "status_updated_at" _ h5 hsu2
  simp [extractJobCols, strGet, deep_get, h1, h2, h3, h4, h6, h7, pyStr, Except.map,
    exceptBind_ok, exceptPure_def]

/-! ## C4: expiry enforced during evaluation submission -/

/-- C4: an evaluation that passes schema validation and references a
non-terminal job whose `expires_at ≤ now` makes `submit_evaluation` first
persist the job as `expired` with reason `expires_at_reached`, record one
`job_expired` event, and then reject the evaluation with a conflict —
leaving the evaluation store untouched. -/
theorem C4_expiry_before_evaluation (C : Components) (st : Store) (evaluation job : Json)
    (evaluation_id org_id job_id s : String) (fields : List (String × Json))
    (e now : Int) (vc : Json)
    (hv : ∀ k d, C.validate k d = .ok ())
    (hevid : deepGetAux evaluation ["metadata", "evaluation_id"] = some (.str evaluation_id))
    (hevorg : deepGetAux evaluation ["metadata", "org_id"] = some (.str org_id))
    (hevjid : deepGetAux evaluation ["spec", "job_ref", "job_id"] = some (.str job_id))
    (hjob : objGet st.jobs job_id = some job)
    (hjorg : deepGetAux job ["metadata", "org_id"] = some (.str org_id))
    (hjid : deepGetAux job ["metadata", "job_id"] = some (.str job_id))
    (hcre : deepGetAux job ["spec", "timestamps", "created_at"] = some vc)
    (hexp : deepGetAux job ["spec", "timestamps", "expires_at"] = some (.num e))
    (hst : deepGetAux job ["spec", "status"] = some (.obj fields))
    (hsf : objGet fields "state" = some (.str s))
    (hterm : is_terminal s = false)
    (hle : e ≤ now) :
    submit_evaluation C evaluation now st =
      .error (.conflict "Job is expired; evaluation cannot be applied")
        { st with
          jobs := objSet st.jobs job_id
            (setDeep job ["spec", "status"] (.obj (expiredStatusFields fields now)))
          events := st.events ++
            [⟨now, org_id, job_id, "job_expired", [("reason", .str "expires_at_reached")]⟩] } ∧
    deepGetAux (setDeep job ["spec", "status"] (.obj (expiredStatusFields fields now)))
      ["spec", "status", "state"] = some (.str "expired") ∧
    deepGetAux (setDeep job ["spec", "status"] (.obj (expiredStatusFields fields now)))
      ["spec", "status", "expiry_reason"] = some (.str "expires_at_reached") := by
  have hss : deepGetAux job ["spec", "status", "state"] = some (.str s) :=
    deepGetAux_status_field job fields "state" _ hst hsf
  have hne : "expired" ≠ s := by
    intro hcontra
    rw [← hcontra] at hterm
    simp [is_terminal] at hterm
  have happ : apply_transition job
      { new_state := "expired", now := now, expiry_reason := some "expires_at_reached" } =
      .ok (setDeep job ["spec", "status"] (.obj (expiredStatusFields fields now))) :=
    apply_transition_eval job _ s fields (expiredStatusFields fields now) hst hsf hne hterm
      rfl (buildStatusFields_expired_eval2 fields now)
  have hcols : extractJobCols
      (setDeep job ["spec", "status"] (.obj (expiredStatusFields fields now))) =
      .ok (job_id, org_id, "expired") :=
    extractJobCols_setDeep job fields _ job_id org_id "expired" vc (.num e) _
      hjid hjorg hcre hexp hst (expiredStatusFields_state fields now)
      (expiredStatusFields_sua fields now)
  have hupd : jobsUpdate
      (setDeep job ["spec", "status"] (.obj (expiredStatusFields fields now))) st =
      .ok () { st with
        jobs := objSet st.jobs job_id
          (setDeep job ["spec", "status"] (.obj (expiredStatusFields fields now))) } := by
    simp only [jobsUpdate, hcols, hjob]
  have hgate : evalExpiryGate C job org_id job_id e now s st =
      .error (.conflict "Job is expired; evaluation cannot be applied")
        { st with
          jobs := objSet st.jobs job_id
            (setDeep job ["spec", "status"] (.obj (expiredStatusFields fields now)))
          events := st.events ++
            [⟨now, org_id, job_id, "job_expired", [("reason", .str "expires_at_reached")]⟩] } := by
    simp only [evalExpiryGate, hle, hterm, Bool.not_false, true_and, if_true, dbmBind_def,
      happ, liftE, dbmPure_def, hv, hupd, recordEvent, throwDb_def]
  have hget : jobsGet job_id st = .ok job st := by
    unfold jobsGet
    rw [hjob]
  have hevidE : strGet evaluation ["metadata", "evaluation_id"] = .ok evaluation_id := by
    simp [strGet, deep_get, hevid, pyStr, Except.map]
  have hevorgE : strGet evaluation ["metadata", "org_id"] = .ok org_id := by
    simp [strGet, deep_get, hevorg, pyStr, Except.map]
  have hevjidE : strGet evaluation ["spec", "job_ref", "job_id"] = .ok job_id := by
    simp [strGet, deep_get, hevjid, pyStr, Except.map]
  have hjorgE : strGet job ["metadata", "org_id"] = .ok org_id := by
    simp [strGet, deep_get, hjorg, pyStr, Except.map]
  have hstateE : strGet job ["spec", "status", "state"] = .ok s := by
    simp [strGet, deep_get, hss, pyStr, Except.map]
  have hexpE : deep_get job ["spec", "timestamps", "expires_at"] = .ok (.num e) := by
    simp [deep_get, hexp]
  have hmatch : evalOrgMatchCheck org_id org_id = (pure () : DbM Unit) := by
    simp [evalOrgMatchCheck]
  have htermC : evalTerminalCheck s = (pure () : DbM Unit) := by
    simp [evalTerminalCheck, hterm]
  refine ⟨?_, deepGetAux_status_field _ _ "state" _
      (deepGetAux_setDeep_self _ _ _ _ hst) (expiredStatusFields_state fields now),
    deepGetAux_status_field _ _ "expiry_reason" _
      (deepGetAux_setDeep_self _ _ _ _ hst) (expiredStatusFields_reason fields now)⟩
  simp only [submit_evaluation, dbmBind_def, hv, liftE, dbmPure_def, hevidE, hevorgE, hevjidE,
    hget, hjorgE, hmatch, htermC, hexpE, parseTime, hstateE, hgate]

/-- Evaluation document for the C4 witness. -/
def evalW : Json := .obj [
  ("metadata", .obj [("evaluation_id", .str "e-c4"), ("org_id", .str "org-g")]),
  ("spec", .obj [
    ("job_ref", .obj [("job_id", .str "j-c4")]),
    ("created_at", .str "t"),
    ("outcome", .obj [("status", .str "pass"), ("next_job_state", .str "completed")]),
    ("evaluator", .obj [
      ("actor_type", .str "human"), ("actor_id", .str "h1"), ("authority_level", .str "senior")])])]

/-- A non-terminal job whose `expires_at` has passed, for the C4 witness. -/
def jobEvalW : Json := .obj [
  ("metadata", .obj [("job_id", .str "j-c4"), ("org_id", .str "org-g")]),
  ("spec", .obj [
    ("timestamps", .obj [("created_at", .num 0), ("expires_at", .num 3)]),
    ("status", .obj [("state", .str "created"), ("status_updated_at", .str "0")])])]

/-- Components for the C4 witness. -/
def compEvalW : Components := {
  validate := fun _ _ => .ok ()
  registry := { orgs := [], agents := [], includedAgents := [] }
  limits := {
    max_iterations_upper_bound := 100
    max_runtime_seconds_upper_bound := 100
    max_cost_upper_bound_currency := "USD"
    max_cost_upper_bound := 100
    max_expires_in_seconds_upper_bound := 10000
    require_known_org := false }
  execution_deferred := true }

/-- Store for the C4 witness. -/
def storeEvalW : Store :=
  { jobs := [("j-c4", jobEvalW)], artifacts := [], evaluations := [], events := [] }

/-- Witness for C4 at a concrete stale job and evaluation. -/
theorem C4_expiry_before_evaluation_witness :
    submit_evaluation compEvalW evalW 5 storeEvalW =
      .error (.conflict "Job is expired; evaluation cannot be applied")
        { storeEvalW with
          jobs := objSet storeEvalW.jobs "j-c4"
            (setDeep jobEvalW ["spec", "status"]
              (.obj (expiredStatusFields
                [("state", .str "created"), ("status_updated_at", .str "0")] 5)))
          events := storeEvalW.events ++
            [⟨5, "org-g", "j-c4", "job_expired", [("reason", .str "expires_at_reached")]⟩] } :=
  (C4_expiry_before_evaluation compEvalW storeEvalW evalW jobEvalW "e-c4" "org-g" "j-c4"
    "created" [("state", .str "created"), ("status_updated_at", .str "0")] 3 5 (.num 0)
    (fun _ _ => rfl) rfl rfl rfl rfl rfl rfl rfl rfl rfl rfl rfl (by decide)).1

/-! ## C7: run gating by org concurrency limits -/

/-- C7: on a run request for a non-expired job of a registry org,
`max_active_jobs ≤ 0` rejects as policy; a `created` job is rejected when
the active count has reached the limit; a `waiting` job is rejected by the
concurrency gate exactly when the active count strictly exceeds the limit
(and a `created` job exactly when it has reached it). -/
theorem C7_run_gating (C : Components) (st : Store) (job org orgExec : Json)
    (job_id org_id s : String) (fields : List (String × Json)) (e m now now2 : Int)
    (hjob : objGet st.jobs job_id = some job)
    (horg : deepGetAux job ["metadata", "org_id"] = some (.str org_id))
    (hexp : deepGetAux job ["spec", "timestamps", "expires_at"] = some (.num e))
    (hlt : now < e)
    (hst : deepGetAux job ["spec", "status"] = some (.obj fields))
    (hsf : objGet fields "state" = some (.str s))
    (hcw : s = "created" ∨ s = "waiting")
    (hko : objGet C.registry.orgs org_id = some org)
    (hoe : deepGetAux org ["spec", "execution_limits"] = some orgExec)
    (hmav : deepGetAux orgExec ["concurrency", "max_active_jobs"] = some (.num m)) :
    (m ≤ 0 → run_job C job_id now now2 st =
      .error (.policyViolation ("Org execution is disabled (max_active_jobs=" ++ toString m ++ ")")) st) ∧
    (s = "created" → 0 < m → m ≤ (countActiveByOrg st org_id : Int) →
      run_job C job_id now now2 st =
        .error (.policyViolation "Org max_active_jobs limit reached") st) ∧
    (s = "waiting" → 0 < m → m < (countActiveByOrg st org_id : Int) →
      run_job C job_id now now2 st =
        .error (.policyViolation "Org max_active_jobs limit reached") st) ∧
    (∀ (m' : Int) (a' : Nat) (stX : Store),
      (activeJobsCheck m' "waiting" a' stX = .ok () stX ↔ 0 < m' ∧ (a' : Int) ≤ m') ∧
      (activeJobsCheck m' "created" a' stX = .ok () stX ↔ 0 < m' ∧ (a' : Int) < m')) := by
  have hss : deepGetAux job ["spec", "status", "state"] = some (.str s) :=
    deepGetAux_status_field job fields "state" _ hst hsf
  have hget : jobsGet job_id st = .ok job st := by
    unfold jobsGet
    rw [hjob]
  have horgE : strGet job ["metadata", "org_id"] = .ok org_id := by
    simp [strGet, deep_get, horg, pyStr, Except.map]
  have hexpE : deep_get job ["spec", "timestamps", "expires_at"] = .ok (.num e) := by
    simp [deep_get, hexp]
  have hnotle : ¬(e ≤ now) := by omega
  have hstateE : strGet job ["spec", "status", "state"] = .ok s := by
    simp [strGet, deep_get, hss, pyStr, Except.map]
  have hrsc : runStateCheck s = (pure () : DbM Unit) := by
    rcases hcw with h | h <;> simp [runStateCheck, h]
  have hhas : C.registry.has_org org_id = true := by
    simp [Registry.has_org, hko]
  have hgo : C.registry.get_org org_id = .ok org := by
    unfold Registry.get_org
    rw [hko]
  have hoeE : deep_get org ["spec", "execution_limits"] = .ok orgExec := by
    simp [deep_get, hoe]
  have hmavE : deep_get orgExec ["concurrency", "max_active_jobs"] = .ok (.num m) := by
    simp [deep_get, hmav]
  refine ⟨?_, ?_, ?_, ?_⟩
  · intro hm
    have hajc : activeJobsCheck m s (countActiveByOrg st org_id) =
        (throwDb (.policyViolation ("Org execution is disabled (max_active_jobs=" ++ toString m ++ ")")) : DbM Unit) := by
      simp [activeJobsCheck, hm]
    have hgateE : orgRunLimitsGate C org_id s now st =
        .error (.policyViolation ("Org execution is disabled (max_active_jobs=" ++ toString m ++ ")")) st := by
      simp only [orgRunLimitsGate, hhas, if_true, dbmBind_def, liftE, hgo, hoeE, hmavE,
        pyIntJ, dbmPure_def, getStore, hajc, throwDb_def]
    simp only [run_job, dbmBind_def, hget, liftE, horgE, hexpE, parseTime, dbmPure_def,
      hnotle, if_false, hstateE, hrsc, hgateE]
  · intro hs hm hcnt
    subst hs
    have hajc : activeJobsCheck m "created" (countActiveByOrg st org_id) =
        (throwDb (.policyViolation "Org max_active_jobs limit reached") : DbM Unit) := by
      have h1 : ¬(m ≤ 0) := by omega
      simp [activeJobsCheck, h1, hcnt]
    have hgateE : orgRunLimitsGate C org_id "created" now st =
        .error (.policyViolation "Org max_active_jobs limit reached") st := by
      simp only [orgRunLimitsGate, hhas, if_true, dbmBind_def, liftE, hgo, hoeE, hmavE,
        pyIntJ, dbmPure_def, getStore, hajc, throwDb_def]
    simp only [run_job, dbmBind_def, hget, liftE, horgE, hexpE, parseTime, dbmPure_def,
      hnotle, if_false, hstateE, hrsc, hgateE]
  · intro hs hm hcnt
    subst hs
    have hajc : activeJobsCheck m "waiting" (countActiveByOrg st org_id) =
        (throwDb (.policyViolation "Org max_active_jobs limit reached") : DbM Unit) := by
      have h1 : ¬(m ≤ 0) := by omega
      simp [activeJobsCheck, h1, hcnt]
    have hgateE : orgRunLimitsGate C org_id "waiting" now st =
        .error (.policyViolation "Org max_active_jobs limit reached") st := by
      simp only [orgRunLimitsGate, hhas, if_true, dbmBind_def, liftE, hgo, hoeE, hmavE,
        pyIntJ, dbmPure_def, getStore, hajc, throwDb_def]
    simp only [run_job, dbmBind_def, hget, liftE, horgE, hexpE, parseTime, dbmPure_def,
      hnotle, if_false, hstateE, hrsc, hgateE]
  · intro m' a' stX
    constructor
    · unfold activeJobsCheck
      split_ifs with h1 h2 h3
      · constructor
        · intro h
          exact absurd h (by simp [throwDb])
        · intro h
          omega
      · exact absurd h2.1 (by decide)
      · constructor
        · intro h
          exact absurd h (by simp [throwDb])
        · intro h
          have := h3.2
          omega
      · constructor
        · intro _
          refine ⟨by omega, ?_⟩
          by_contra hc
          exact h3 ⟨rfl, by omega⟩
        · intro _
          rfl
    · unfold activeJobsCheck
      split_ifs with h1 h2 h3
      · constructor
        · intro h
          exact absurd h (by simp [throwDb])
        · intro h
          omega
      · constructor
        · intro h
          exact absurd h (by simp [throwDb])
        · intro h
          have := h2.2
          omega
      · exact absurd h3.1 (by decide)
      · constructor
        · intro _
          refine ⟨by omega, ?_⟩
          by_contra hc
          exact h2 ⟨rfl, by omega⟩
        · intro _
          rfl

/-- Org manifest with execution disabled (`max_active_jobs = 0`). -/
def orgGateW : Json := .obj [
  ("spec", .obj [
    ("execution_limits", .obj [
      ("concurrency", .obj [("max_active_jobs", .num 0)]),
      ("rate_limits", .obj [("max_job_starts_per_minute", .num 5)])])])]

/-- A runnable job of that org. -/
def jobGateW : Json := .obj [
  ("metadata", .obj [("job_id", .str "j-c7"), ("org_id", .str "org-h")]),
  ("spec", .obj [
    ("timestamps", .obj [("created_at", .num 0), ("expires_at", .num 100)]),
    ("status", .obj [("state", .str "created"), ("status_updated_at", .str "0")])])]

/-- Components for the C7 witness. -/
def compGateW : Components := {
  validate := fun _ _ => .ok ()
  registry := { orgs := [("org-h", orgGateW)], agents := [], includedAgents := [] }
  limits := {
    max_iterations_upper_bound := 100
    max_runtime_seconds_upper_bound := 100
    max_cost_upper_bound_currency := "USD"
    max_cost_upper_bound := 100
    max_expires_in_seconds_upper_bound := 10000
    require_known_org := false }
  execution_deferred := true }

/-- Store for the C7 witness. -/
def storeGateW : Store :=
  { jobs := [("j-c7", jobGateW)], artifacts := [], evaluations := [], events := [] }

/-- Witness for C7: with `max_active_jobs = 0` the run request is rejected
as policy, and the waiting-state concurrency rule accepts a count equal to
the limit. -/
theorem C7_run_gating_witness :
    run_job compGateW "j-c7" 5 6 storeGateW =
      .error (.policyViolation "Org execution is disabled (max_active_jobs=0)") storeGateW ∧
    activeJobsCheck 2 "waiting" 2 storeGateW = .ok () storeGateW := by
  have h := C7_run_gating compGateW storeGateW jobGateW orgGateW
    (.obj [("concurrency", .obj [("max_active_jobs", .num 0)]),
           ("rate_limits", .obj [("max_job_starts_per_minute", .num 5)])])
    "j-c7" "org-h" "created"
    [("state", .str "created"), ("status_updated_at", .str "0")]
    100 0 5 6
    rfl rfl rfl (by decide) rfl rfl (Or.inl rfl) rfl rfl rfl
  exact ⟨h.1 (by decide), (h.2.2.2 2 2 storeGateW).1.mpr (by decide)⟩

/-! ## C5: deferred execution behavior of run_job -/

theorem preserves_activeJobsCheck (m : Int) (s : String) (a : Nat) :
    preservesStore (activeJobsCheck m s a) := by
  unfold activeJobsCheck
  repeat'
    first
    | apply preserves_ite
    | exact preserves_throwDb _
    | exact preserves_pure _

theorem preserves_rateLimitCheck (m : Int) (a : Nat) :
    preservesStore (rateLimitCheck m a) := by
  unfold rateLimitCheck
  repeat'
    first
    | apply preserves_ite
    | exact preserves_throwDb _
    | exact preserves_pure _

theorem preserves_orgRunLimitsGate (C : Components) (org_id s : String) (now : Int) :
    preservesStore (orgRunLimitsGate C org_id s now) := by
  unfold orgRunLimitsGate
  repeat'
    first
    | apply preserves_bind
    | apply preserves_ite
    | exact preserves_liftE _
    | exact preserves_pure _
    | exact preserves_throwDb _
    | exact preserves_getStore
    | exact preserves_activeJobsCheck _ _ _
    | exact preserves_rateLimitCheck _ _
    | intro x

/-- C5: with execution deferred, every successful `run_job` on a
non-expired job in `created` or `waiting` returns the document driven
through `running` (setting `started_at`) and then parked in `waiting`, and
appends exactly a `job_started` event followed by an `execution_deferred`
event whose details carry `reason = "agent_execution_not_implemented"`. -/
theorem C5_run_job_deferred (C : Components) (st st2 : Store) (job out : Json)
    (job_id org_id s : String) (fields : List (String × Json)) (e now now2 : Int)
    (hdef : C.execution_deferred = true)
    (hjob : objGet st.jobs job_id = some job)
    (horg : deepGetAux job ["metadata", "org_id"] = some (.str org_id))
    (hexp : deepGetAux job ["spec", "timestamps", "expires_at"] = some (.num e))
    (hlt : now < e)
    (hst : deepGetAux job ["spec", "status"] = some (.obj fields))
    (hsf : objGet fields "state" = some (.str s))
    (hcw : s = "created" ∨ s = "waiting")
    (hrun : run_job C job_id now now2 st = .ok out st2) :
    out = setDeep (setDeep job ["spec", "status"] (.obj (runningStatusFields fields now)))
      ["spec", "status"] (.obj (waitingStatusFields fields now now2)) ∧
    deepGetAux out ["spec", "status", "state"] = some (.str "waiting") ∧
    (∃ w, deepGetAux out ["spec", "status", "started_at"] = some w) ∧
    st2.events = st.events ++
      [⟨now, org_id, job_id, "job_started", [("previous_state", .str s)]⟩,
       ⟨now2, org_id, job_id, "execution_deferred",
         [("reason", .str "agent_execution_not_implemented"), ("build_mode", .bool true)]⟩] := by
  have hss : deepGetAux job ["spec", "status", "state"] = some (.str s) :=
    deepGetAux_status_field job fields "state" _ hst hsf
  have hget : jobsGet job_id st = .ok job st := by
    unfold jobsGet
    rw [hjob]
  have horgE : strGet job ["metadata", "org_id"] = .ok org_id := by
    simp [strGet, deep_get, horg, pyStr, Except.map]
  have hexpE : deep_get job ["spec", "timestamps", "expires_at"] = .ok (.num e) := by
    simp [deep_get, hexp]
  have hnotle : ¬(e ≤ now) := by omega
  have hstateE : strGet job ["spec", "status", "state"] = .ok s := by
    simp [strGet, deep_get, hss, pyStr, Except.map]
  have hrsc : runStateCheck s = (pure () : DbM Unit) := by
    rcases hcw with h | h <;> simp [runStateCheck, h]
  have hne1 : "running" ≠ s := by
    rcases hcw with h | h <;> simp [h]
  have hterm1 : is_terminal s = false := by
    rcases hcw with h | h <;> simp [h, is_terminal]
  have hallow1 : transitionAllowedCheck s "running" = .ok () := by
    rcases hcw with h | h <;> subst h <;> rfl
  have happ1 : apply_transition job { new_state := "running", now := now } =
      .ok (setDeep job ["spec", "status"] (.obj (runningStatusFields fields now))) :=
    apply_transition_eval job _ s fields _ hst hsf hne1 hterm1 hallow1
      (buildStatusFields_running_eval2 fields now)
  have hst2 : deepGetAux (setDeep job ["spec", "status"] (.obj (runningStatusFields fields now)))
      ["spec", "status"] = some (.obj (runningStatusFields fields now)) :=
    deepGetAux_setDeep_self _ _ _ _ hst
  have happ2 : apply_transition
      (setDeep job ["spec", "status"] (.obj (runningStatusFields fields now)))
      { new_state := "waiting", now := now2 } =
      .ok (setDeep (setDeep job ["spec", "status"] (.obj (runningStatusFields fields now)))
        ["spec", "status"] (.obj (waitingStatusFields fields now now2))) :=
    apply_transition_eval _ _ "running" (runningStatusFields fields now) _ hst2
      (runningStatusFields_state fields now)
      (show ("waiting" : String) ≠ "running" from by decide) rfl rfl
      (buildStatusFields_waiting_eval2 fields now now2)
  unfold run_job at hrun
  rcases dbmBind_ok.mp hrun with ⟨j1, sA, hA, hrun⟩
  rw [hget] at hA
  cases hA
  rcases dbmBind_ok.mp hrun with ⟨oid, sB, hB, hrun⟩
  rw [liftE_eval horgE st] at hB
  cases hB
  rcases dbmBind_ok.mp hrun with ⟨ev, sC, hC, hrun⟩
  rw [liftE_eval hexpE st] at hC
  cases hC
  rcases dbmBind_ok.mp hrun with ⟨et, sD, hD, hrun⟩
  rw [liftE_eval (show parseTime (.num e) = .ok e from rfl) st] at hD
  cases hD
  rw [if_neg hnotle] at hrun
  rcases dbmBind_ok.mp hrun with ⟨sv, sF, hF, hrun⟩
  rw [liftE_eval hstateE st] at hF
  cases hF
  rcases dbmBind_ok.mp hrun with ⟨u1, sG, hG, hrun⟩
  rw [hrsc, dbmPure_def] at hG
  cases hG
  rcases dbmBind_ok.mp hrun with ⟨u2, sH, hH, hrun⟩
  have eH : st = sH := (preserves_ok (preserves_orgRunLimitsGate C org_id s now) hH).symm
  subst eH
  rcases dbmBind_ok.mp hrun with ⟨rdoc, sI, hI, hrun⟩
  rw [liftE_eval happ1 st] at hI
  cases hI
  rcases dbmBind_ok.mp hrun with ⟨u3, sJ, hJ, hrun⟩
  have eJ : st = sJ := (preserves_ok (preserves_liftE _) hJ).symm
  subst eJ
  rcases dbmBind_ok.mp hrun with ⟨u4, sK, hK, hrun⟩
  obtain ⟨colsK, j0K, hcolsK, hobK, hsK⟩ := jobsUpdate_ok hK
  subst hsK
  rcases dbmBind_ok.mp hrun with ⟨u5, sL, hL, hrun⟩
  rw [recordEvent_eval] at hL
  cases hL
  rw [if_pos hdef] at hrun
  rcases dbmBind_ok.mp hrun with ⟨wdoc, sN, hN, hrun⟩
  rw [liftE_eval happ2 _] at hN
  cases hN
  rcases dbmBind_ok.mp hrun with ⟨u6, sO, hO, hrun⟩
  have eO : _ = sO := (preserves_ok (preserves_liftE _) hO).symm
  subst eO
  rcases dbmBind_ok.mp hrun with ⟨u7, sP, hP, hrun⟩
  obtain ⟨colsP, j0P, hcolsP, hobP, hsP⟩ := jobsUpdate_ok hP
  subst hsP
  rcases dbmBind_ok.mp hrun with ⟨u8, sQ, hQ, hrun⟩
  rw [recordEvent_eval] at hQ
  cases hQ
  rw [dbmPure_def] at hrun
  cases hrun
  refine ⟨rfl, ?_, ?_, ?_⟩
  · exact deepGetAux_status_field _ _ "state" _
      (deepGetAux_setDeep_self _ _ _ _ hst2) (waitingStatusFields_state fields now now2)
  · obtain ⟨w, hw⟩ := waitingStatusFields_started_at fields now now2
    exact ⟨w, deepGetAux_status_field _ _ "started_at" _
      (deepGetAux_setDeep_self _ _ _ _ hst2) hw⟩
  · simp

/-- A runnable job of an unregistered org, for the C5 witness. -/
def jobRunW : Json := .obj [
  ("metadata", .obj [("job_id", .str "j-c5"), ("org_id", .str "org-i")]),
  ("spec", .obj [
    ("timestamps", .obj [("created_at", .num 0), ("expires_at", .num 100)]),
    ("status", .obj [("state", .str "created"), ("status_updated_at", .str "0")])])]

/-- Components for the C5 witness (execution deferred, org unknown so the
run gate is skipped). -/
def compRunW : Components := {
  validate := fun _ _ => .ok ()
  registry := { orgs := [], agents := [], includedAgents := [] }
  limits := {
    max_iterations_upper_bound := 100
    max_runtime_seconds_upper_bound := 100
    max_cost_upper_bound_currency := "USD"
    max_cost_upper_bound := 100
    max_expires_in_seconds_upper_bound := 10000
    require_known_org := false }
  execution_deferred := true }

/-- Store for the C5 witness. -/
def storeRunW : Store :=
  { jobs := [("j-c5", jobRunW)], artifacts := [], evaluations := [], events := [] }

/-- The document `run_job` returns for the C5 witness. -/
def outRunW : Json := .obj [
  ("metadata", .obj [("job_id", .str "j-c5"), ("org_id", .str "org-i")]),
  ("spec", .obj [
    ("timestamps", .obj [("created_at", .num 0), ("expires_at", .num 100)]),
    ("status", .obj [
      ("state", .str "waiting"),
      ("status_updated_at", .str "6"),
      ("started_at", .str "5")])])]

/-- The store `run_job` leaves behind for the C5 witness. -/
def storeRunW2 : Store := {
  jobs := [("j-c5", outRunW)]
  artifacts := []
  evaluations := []
  events := [
    ⟨5, "org-i", "j-c5", "job_started", [("previous_state", .str "created")]⟩,
    ⟨6, "org-i", "j-c5", "execution_deferred",
      [("reason", .str "agent_execution_not_implemented"), ("build_mode", .bool true)]⟩] }

/-- Witness for C5 at a concrete deferred run. -/
theorem C5_run_job_deferred_witness :
    run_job compRunW "j-c5" 5 6 storeRunW = .ok outRunW storeRunW2 ∧
    deepGetAux outRunW ["spec", "status", "state"] = some (.str "waiting") ∧
    (∃ w, deepGetAux outRunW ["spec", "status", "started_at"] = some w) ∧
    storeRunW2.events = storeRunW.events ++
      [⟨5, "org-i", "j-c5", "job_started", [("previous_state", .str "created")]⟩,
       ⟨6, "org-i", "j-c5", "execution_deferred",
         [("reason", .str "agent_execution_not_implemented"), ("build_mode", .bool true)]⟩] := by
  have hrun : run_job compRunW "j-c5" 5 6 storeRunW = .ok outRunW storeRunW2 := by decide
  have h := C5_run_job_deferred compRunW storeRunW storeRunW2 jobRunW outRunW "j-c5" "org-i"
    "created" [("state", .str "created"), ("status_updated_at", .str "0")] 100 5 6
    rfl rfl rfl rfl (by decide) rfl rfl (Or.inl rfl) hrun
  exact ⟨hrun, h.2.1, h.2.2.1, h.2.2.2⟩

/-- A job contract passing every submission gate, for the C2 witness. -/
def jobSubW : Json := .obj [
  ("metadata", .obj [("job_id", .str "j-w2"), ("org_id", .str "org-w")]),
  ("spec", .obj [
    ("timestamps", .obj [("created_at", .num 0), ("expires_at", .num 100)]),
    ("execution_limits", .obj [
      ("max_iterations", .num 1), ("max_runtime_seconds", .num 1),
      ("cost_cap", .obj [("currency", .str "USD"), ("max_cost", .num 1)])]),
    ("status", .obj [("state", .str "created"), ("status_updated_at", .str "0")])])]

/-- Store after the C2 witness artifact submission. -/
def storeArt2W : Store :=
  { storeArtifactCE with artifacts := [("a-c2", artifactCE)] }

/-- Store after the C2 witness job submission. -/
def storeSub2W : Store := {
  jobs := storeArtifactCE.jobs ++ [("j-w2", jobSubW)]
  artifacts := []
  evaluations := []
  events := [⟨5, "org-w", "j-w2", "job_submitted", [("state", .str "created")]⟩] }

/-- Witness for C2 at a concrete admitted artifact and a concrete admitted
job submission. -/
theorem C2_submission_audit_events_witness :
    storeArt2W.events = storeArtifactCE.events ∧
    storeSub2W.events = storeArtifactCE.events ++
      [⟨5, "org-w", "j-w2", "job_submitted", [("state", .str "created")]⟩] := by
  have h := C2_submission_audit_events compArtifactCE storeArtifactCE artifactCE jobSubW
  exact ⟨h.1 artifactCE storeArt2W (by decide),
    h.2 jobSubW storeSub2W 5 "org-w" "j-w2" rfl rfl (by decide)⟩
